import Mathlib

/-!
# Spotify-auth: the token lifecycle of `server.js`

A shallow embedding of `src/server.js`: the process-wide token variables, the
durable file `tokens.json`, the refresh function and the four route handlers,
followed by theorems about them.

Modelling conventions.

* JavaScript values are the JSON values plus `undefined`.  Numbers are
  integers (no claim depends on arithmetic), so `JSON.parse` is modelled on
  texts whose numerals have no fraction and no exponent; strings are sequences
  of Unicode scalar values, so a string holding an unpaired surrogate is
  outside the model.  The fields of an object have distinct keys.
* Every provider call is resolved by an explicit `HttpOutcome` argument: what
  `axios` does with the provider's answer.  A function returns, next to its
  result, the new state and the list of effects (`Event`) it performed, in
  order.
* The file system is reliable: `fs.writeFileSync` completes.
* Handlers run one at a time; the interleaving of two handlers at an `await`
  is not modelled.
-/

set_option autoImplicit false
set_option maxRecDepth 100000

namespace SpotifyAuth

/-! ## JavaScript values -/

/-- JavaScript values that `JSON.parse` can produce, and `undefined`. -/
inductive JsVal where
  | undefined
  | null
  | bool (b : Bool)
  | num (n : Int)
  | str (s : String)
  | arr (xs : List JsVal)
  | obj (fields : List (String × JsVal))

namespace JsVal

/-- ToBoolean: what `!v`, `v || d` and `c && v` test. -/
def truthy : JsVal → Bool
  | undefined => false
  | null => false
  | bool b => b
  | num n => n != 0
  | str s => s != ""
  | arr _ => true
  | obj _ => true

/-- The operator `a || b`. -/
def or (a b : JsVal) : JsVal := if a.truthy then a else b

/-- Whether `v` is `null` or `undefined`: where `?.` stops and `.` throws. -/
def nullish : JsVal → Bool
  | undefined => true
  | null => true
  | _ => false

/-- Own property `k` of an object given as its list of fields. -/
def lookup (k : String) : List (String × JsVal) → JsVal
  | [] => undefined
  | (k1, v) :: rest => if k1 = k then v else lookup k rest

/-- The message of the TypeError V8 raises for `v.k` when `v` is nullish. -/
def typeErrorMessage (v : JsVal) (k : String) : String :=
  "Cannot read properties of " ++ (if v matches null then "null" else "undefined") ++
    " (reading " ++ String.singleton (Char.ofNat 39) ++ k ++ String.singleton (Char.ofNat 39) ++ ")"

/-- Read `v.k` for a name `k` that no prototype defines (every name the
    program reads is such a name): the own field of an object, `undefined` on
    any other non-nullish value, a TypeError on `null` and `undefined`. -/
def getProp (v : JsVal) (k : String) : Except String JsVal :=
  match v with
  | undefined => .error (typeErrorMessage v k)
  | null => .error (typeErrorMessage v k)
  | obj fields => .ok (lookup k fields)
  | _ => .ok undefined

/-- Read `v[0]` on a non-nullish `v`: the first element of an array, the field
    `"0"` of an object, the first character of a string. -/
def getIndex0 (v : JsVal) : Except String JsVal :=
  match v with
  | undefined => .error (typeErrorMessage v "0")
  | null => .error (typeErrorMessage v "0")
  | arr [] => .ok undefined
  | arr (x :: _) => .ok x
  | obj fields => .ok (lookup "0" fields)
  | str s => .ok (match s.data with
      | [] => undefined
      | c :: _ => str (String.singleton c))
  | _ => .ok undefined

mutual
/-- ToString, as a template literal applies it to an interpolated value. -/
def toStr : JsVal → String
  | undefined => "undefined"
  | null => "null"
  | bool b => if b then "true" else "false"
  | num n => toString n
  | str s => s
  | arr xs => joinStr xs
  | obj _ => "[object Object]"
termination_by structural v => v
/-- `Array.prototype.join(",")`: nullish elements print as nothing. -/
def joinStr : List JsVal → String
  | [] => ""
  | x :: t =>
    (match x with
      | undefined => ""
      | null => ""
      | v => toStr v) ++
    (match t with
      | [] => ""
      | _ :: _ => "," ++ joinStr t)
termination_by structural l => l
end

end JsVal

/-! ## JSON text: `JSON.stringify(v, null, 2)` and `JSON.parse` -/

namespace Json

/-- The double quote. -/
def dq : Char := Char.ofNat 34
/-- The backslash. -/
def bs : Char := Char.ofNat 92
/-- The line feed. -/
def nl : Char := Char.ofNat 10

/-- The lower-case hexadecimal digit of `n < 16`. -/
def hexDigit (n : Nat) : Char :=
  if n < 10 then Char.ofNat (48 + n) else Char.ofNat (87 + n)

/-- The escape `\uXXXX` of a code unit. -/
def unicodeEscape (n : Nat) : List Char :=
  [bs, 'u', hexDigit (n / 4096 % 16), hexDigit (n / 256 % 16), hexDigit (n / 16 % 16),
    hexDigit (n % 16)]

/-- QuoteJSONString on one character: the two-character escapes of the
    standard's table, `\uXXXX` for the other control characters, the character
    itself otherwise. -/
def quoteChar (c : Char) : List Char :=
  if c.toNat = 8 then [bs, 'b']
  else if c.toNat = 9 then [bs, 't']
  else if c.toNat = 10 then [bs, 'n']
  else if c.toNat = 12 then [bs, 'f']
  else if c.toNat = 13 then [bs, 'r']
  else if c = dq then [bs, dq]
  else if c = bs then [bs, bs]
  else if c.toNat < 32 then unicodeEscape c.toNat
  else [c]

/-- The characters of a string literal between its quotes. -/
def quoteBody : List Char → List Char
  | [] => []
  | c :: cs => quoteChar c ++ quoteBody cs

/-- QuoteJSONString. -/
def quote (s : String) : List Char := dq :: (quoteBody s.data ++ [dq])

/-- The gap of `JSON.stringify(v, null, 2)`: two spaces. -/
def gap : List Char := [' ', ' ']

/-- Join the serialised members or elements with `sep`. -/
def joinWith (sep : List Char) : List (List Char) → List Char
  | [] => []
  | [p] => p
  | p :: q :: rest => p ++ sep ++ joinWith sep (q :: rest)

/-- Wrap the non-empty list `parts` of members or elements between `o` and
    `c`, one per line at `indent ++ gap`, as SerializeJSONObject and
    SerializeJSONArray do for a non-empty gap. -/
def wrap (o c : Char) (indent : List Char) (parts : List (List Char)) : List Char :=
  match parts with
  | [] => [o, c]
  | _ :: _ =>
    o :: nl :: ((indent ++ gap) ++ joinWith (',' :: nl :: (indent ++ gap)) parts ++
      nl :: (indent ++ [c]))

mutual
/-- SerializeJSONProperty at indentation `indent`; `none` is the standard's
    `undefined` (the value has no JSON text). -/
def serialize (indent : List Char) : JsVal → Option (List Char)
  | .undefined => none
  | .null => some ['n', 'u', 'l', 'l']
  | .bool b => some (if b then ['t', 'r', 'u', 'e'] else ['f', 'a', 'l', 's', 'e'])
  | .num n => some (toString n).data
  | .str s => some (quote s)
  | .arr xs => some (wrap '[' ']' indent (serializeElems (indent ++ gap) xs))
  | .obj fields => some (wrap '{' '}' indent (serializeMembers (indent ++ gap) fields))
termination_by structural v => v
/-- The elements of an array: one without JSON text prints as `null`. -/
def serializeElems (indent : List Char) : List JsVal → List (List Char)
  | [] => []
  | x :: rest =>
    (match serialize indent x with
      | some t => t
      | none => ['n', 'u', 'l', 'l']) :: serializeElems indent rest
termination_by structural l => l
/-- The members of an object: one whose value has no JSON text is left out. -/
def serializeMembers (indent : List Char) : List (String × JsVal) → List (List Char)
  | [] => []
  | (k, v) :: rest =>
    match serialize indent v with
    | some t => (quote k ++ ':' :: ' ' :: t) :: serializeMembers indent rest
    | none => serializeMembers indent rest
termination_by structural l => l
end

/-- `JSON.stringify(v, null, 2)`; `none` where JavaScript yields `undefined`. -/
def stringify (v : JsVal) : Option String := (serialize [] v).map String.mk

/-- JSON white space: space, tab, line feed, carriage return. -/
def isWs (c : Char) : Bool :=
  c.toNat = 32 || c.toNat = 9 || c.toNat = 10 || c.toNat = 13

/-- Drop leading white space. -/
def skipWs : List Char → List Char
  | [] => []
  | c :: cs => if isWs c then skipWs cs else c :: cs

/-- The value of a hexadecimal digit, of either case. -/
def hexVal (c : Char) : Option Nat :=
  if 48 ≤ c.toNat ∧ c.toNat ≤ 57 then some (c.toNat - 48)
  else if 97 ≤ c.toNat ∧ c.toNat ≤ 102 then some (c.toNat - 87)
  else if 65 ≤ c.toNat ∧ c.toNat ≤ 70 then some (c.toNat - 55)
  else none

/-- The code unit written by four hexadecimal digits. -/
def hex4 (a b c d : Char) : Option Nat :=
  match hexVal a, hexVal b, hexVal c, hexVal d with
  | some x, some y, some z, some w => some (((x * 16 + y) * 16 + z) * 16 + w)
  | _, _, _, _ => none

/-- The character a two-character escape stands for. -/
def simpleEscape (c : Char) : Option Char :=
  if c = dq then some dq
  else if c = bs then some bs
  else if c = '/' then some '/'
  else if c = 'b' then some (Char.ofNat 8)
  else if c = 'f' then some (Char.ofNat 12)
  else if c = 'n' then some (Char.ofNat 10)
  else if c = 'r' then some (Char.ofNat 13)
  else if c = 't' then some (Char.ofNat 9)
  else none

/-- Put a decoded character in front of the rest of a decoded string. -/
def consChar (c : Char) (r : Option (List Char × List Char)) : Option (List Char × List Char) :=
  match r with
  | none => none
  | some (s, rest) => some (c :: s, rest)

/-- Decode the escape that follows a backslash: the character it stands for
    and the number of characters it takes.  An escape that writes an unpaired
    surrogate is outside the model and read as an error. -/
def parseEscape : List Char → Option (Char × Nat)
  | [] => none
  | e :: cs1 =>
    if e = 'u' then
      match cs1 with
      | a :: b :: x :: d :: cs2 =>
        match hex4 a b x d with
        | none => none
        | some n =>
          if n < 55296 ∨ 57343 < n then some (Char.ofNat n, 5)
          else if n ≤ 56319 then
            match cs2 with
            | b1 :: u1 :: a2 :: b2 :: x2 :: d2 :: _ =>
              if b1 = bs ∧ u1 = 'u' then
                match hex4 a2 b2 x2 d2 with
                | none => none
                | some m =>
                  if 56320 ≤ m ∧ m ≤ 57343 then
                    some (Char.ofNat (65536 + (n - 55296) * 1024 + (m - 56320)), 11)
                  else none
              else none
            | _ => none
          else none
      | _ => none
    else
      match simpleEscape e with
      | none => none
      | some ch => some (ch, 1)

/-- Read a string literal after its opening quote, having first passed over
    `skip` characters (those of an escape already decoded): the decoded
    characters and what follows the closing quote.  A raw control character, a
    bad escape and an unterminated literal are syntax errors. -/
def parseStrLoop : Nat → List Char → Option (List Char × List Char)
  | _, [] => none
  | skip + 1, _ :: cs => parseStrLoop skip cs
  | 0, c :: cs =>
    if c = dq then some ([], cs)
    else if c = bs then
      match parseEscape cs with
      | none => none
      | some (ch, k) => consChar ch (parseStrLoop k cs)
    else if c.toNat < 32 then none
    else consChar c (parseStrLoop 0 cs)

/-- Read a string literal after its opening quote. -/
def parseStrBody (cs : List Char) : Option (List Char × List Char) := parseStrLoop 0 cs

/-- Read decimal digits onto the accumulator. -/
def digitsVal : List Char → Nat → Nat × List Char
  | [], acc => (acc, [])
  | c :: cs, acc =>
    if 48 ≤ c.toNat ∧ c.toNat ≤ 57 then digitsVal cs (acc * 10 + (c.toNat - 48))
    else (acc, c :: cs)

/-- The integer part of a JSON number: `0`, or a non-zero digit and more digits. -/
def parseNat : List Char → Option (Nat × List Char)
  | [] => none
  | c :: rest =>
    if c = '0' then some (0, rest)
    else if 49 ≤ c.toNat ∧ c.toNat ≤ 57 then some (digitsVal rest (c.toNat - 48))
    else none

/-- Whether a fraction or an exponent follows. -/
def startsFraction : List Char → Bool
  | [] => false
  | c :: _ => c = '.' || c = 'e' || c = 'E'

/-- Read a JSON number.  Numbers are integers in this model: a numeral with a
    fraction or an exponent is outside it and read as an error. -/
def parseNumber (cs : List Char) : Option (JsVal × List Char) :=
  match cs with
  | [] => none
  | c :: rest =>
    match (if c = '-' then parseNat rest else parseNat (c :: rest)) with
    | none => none
    | some (n, rest1) =>
      if startsFraction rest1 then none
      else some (.num (if c = '-' then -(n : Int) else (n : Int)), rest1)

/-- Drop the characters of `word` from the front of the input. -/
def stripWord : List Char → List Char → Option (List Char)
  | [], cs => some cs
  | _ :: _, [] => none
  | w :: ws, c :: cs => if w = c then stripWord ws cs else none

/-- Read one of the literals `true`, `false`, `null`. -/
def parseLiteral (word : List Char) (v : JsVal) (cs : List Char) : Option (JsVal × List Char) :=
  match stripWord word cs with
  | none => none
  | some rest => some (v, rest)

/-- Define field `k` of the object being read: a repeated key keeps its place
    and takes the later value. -/
def setField (k : String) (v : JsVal) : List (String × JsVal) → List (String × JsVal)
  | [] => [(k, v)]
  | (k1, v1) :: rest => if k1 = k then (k1, v) :: rest else (k1, v1) :: setField k v rest

mutual
/-- Read one JSON value.  The fuel bounds the depth of the calls; twice the
    length of the text plus one is enough for every text, more fuel changes
    nothing (`parseValue_fuel`). -/
def parseValue : Nat → List Char → Option (JsVal × List Char)
  | 0, _ => none
  | fuel + 1, cs =>
    match skipWs cs with
    | [] => none
    | c :: rest =>
      if c = '{' then
        match skipWs rest with
        | [] => none
        | c1 :: rest1 =>
          if c1 = '}' then some (.obj [], rest1) else parseMembers fuel [] (c1 :: rest1)
      else if c = '[' then
        match skipWs rest with
        | [] => none
        | c1 :: rest1 =>
          if c1 = ']' then some (.arr [], rest1) else parseElems fuel [] (c1 :: rest1)
      else if c = dq then
        match parseStrBody rest with
        | none => none
        | some (s, rest1) => some (.str (String.mk s), rest1)
      else if c = 't' then parseLiteral ['t', 'r', 'u', 'e'] (.bool true) (c :: rest)
      else if c = 'f' then parseLiteral ['f', 'a', 'l', 's', 'e'] (.bool false) (c :: rest)
      else if c = 'n' then parseLiteral ['n', 'u', 'l', 'l'] .null (c :: rest)
      else parseNumber (c :: rest)
/-- Read the members of an object up to its closing brace; `acc` holds the
    members read so far. -/
def parseMembers : Nat → List (String × JsVal) → List Char → Option (JsVal × List Char)
  | 0, _, _ => none
  | fuel + 1, acc, cs =>
    match skipWs cs with
    | [] => none
    | c :: rest =>
      if c = dq then
        match parseStrBody rest with
        | none => none
        | some (k, rest1) =>
          match skipWs rest1 with
          | [] => none
          | c1 :: rest2 =>
            if c1 = ':' then
              match parseValue fuel rest2 with
              | none => none
              | some (v, rest3) =>
                match skipWs rest3 with
                | [] => none
                | c2 :: rest4 =>
                  if c2 = ',' then parseMembers fuel (setField (String.mk k) v acc) rest4
                  else if c2 = '}' then some (.obj (setField (String.mk k) v acc), rest4)
                  else none
            else none
      else none
/-- Read the elements of an array up to its closing bracket; `acc` holds the
    elements read so far. -/
def parseElems : Nat → List JsVal → List Char → Option (JsVal × List Char)
  | 0, _, _ => none
  | fuel + 1, acc, cs =>
    match parseValue fuel cs with
    | none => none
    | some (v, rest) =>
      match skipWs rest with
      | [] => none
      | c :: rest1 =>
        if c = ',' then parseElems fuel (acc ++ [v]) rest1
        else if c = ']' then some (.arr (acc ++ [v]), rest1)
        else none
end

/-- `JSON.parse(text)`; `none` where JavaScript throws a SyntaxError. -/
def parse (text : String) : Option JsVal :=
  match parseValue (2 * text.data.length + 1) text.data with
  | none => none
  | some (v, rest) => if (skipWs rest).isEmpty then some v else none

end Json

/-! ## The process state and its effects -/

/-- What `axios` makes of the provider's answer: the promise resolves with the
    response (status 2xx), of which the program reads `data`, or it rejects
    with an error, of which the program reads `response?.status` (absent when
    no response arrived) and `message`. -/
inductive HttpOutcome where
  | resolved (data : JsVal)
  | rejected (status : Option Nat) (message : String)

/-- An effect outside the process. -/
inductive Event where
  /-- `axios.post` to `https://accounts.spotify.com/api/token` with this
      `grant_type` and this `refresh_token` or `code`. -/
  | tokenPost (grantType : String) (credential : JsVal)
  /-- `axios.get` of `https://api.spotify.com/v1/me/playlists` with this
      access token as the bearer. -/
  | playlistsGet (bearer : JsVal)
  /-- `fs.writeFileSync(TOKEN_FILE, content)`. -/
  | fileWrite (content : String)

/-- The two module variables of lines 14-15 and the content of `tokens.json`
    (`none`: the file does not exist). -/
structure World where
  access_token : JsVal
  refresh_token : JsVal
  file : Option String

/-- The object `{ access_token, refresh_token }` of line 28. -/
def tokenObject (w : World) : JsVal :=
  .obj [("access_token", w.access_token), ("refresh_token", w.refresh_token)]

/-- Lines 19-24: the tokens after the load at startup; `none` when the load
    throws and the process ends (the file is not JSON, or it holds `null`). -/
def loadTokens (file : Option String) : Option World :=
  match file with
  | none => some { access_token := .null, refresh_token := .null, file := none }
  | some text =>
    match Json.parse text with
    | none => none
    | some savedTokens =>
      match savedTokens.getProp "access_token", savedTokens.getProp "refresh_token" with
      | .ok a, .ok r => some { access_token := a, refresh_token := r, file := some text }
      | _, _ => none

/-- Lines 27-29.  `JSON.stringify` of an object is a string, so the second
    branch is never taken (`stringify_tokenObject`). -/
def saveTokens (w : World) : World × List Event :=
  match Json.stringify (tokenObject w) with
  | some text => ({ w with file := some text }, [.fileWrite text])
  | none => (w, [])

/-- The value `refreshAccessToken` resolves to. -/
structure RefreshResult where
  success : Bool
  message : String

/-- Lines 32-61.  `net` is the outcome of the POST of line 39, used only when
    the POST is made.  The `catch` of line 57 receives the rejection of the
    POST and the TypeError of line 53 alike; both precede the assignment. -/
def refreshAccessToken (w : World) (net : HttpOutcome) : RefreshResult × World × List Event :=
  if !w.refresh_token.truthy then
    ({ success := false, message := "No refresh token" }, w, [])
  else
    match net with
    | .rejected _ _ =>
      ({ success := false, message := "Refresh failed" }, w,
        [.tokenPost "refresh_token" w.refresh_token])
    | .resolved data =>
      match data.getProp "access_token" with
      | .error _ =>
        ({ success := false, message := "Refresh failed" }, w,
          [.tokenPost "refresh_token" w.refresh_token])
      | .ok a =>
        ({ success := true, message := "Access token refreshed" },
          (saveTokens { w with access_token := a }).1,
          .tokenPost "refresh_token" w.refresh_token :: (saveTokens { w with access_token := a }).2)

/-- Lines 67-72: the refresh attempted once at startup. -/
def startupRefresh (w : World) (net : HttpOutcome) : World × List Event :=
  if w.refresh_token.truthy then (refreshAccessToken w net).2 else (w, [])

/-! ## The routes -/

/-- What a handler answers. -/
inductive Response where
  /-- `res.redirect(location)`: status 302. -/
  | redirect (location : String)
  /-- `res.status(status).json(body)`. -/
  | json (status : Nat) (body : JsVal)
  /-- `res.send(html)`: status 200. -/
  | send (html : String)

/-- The body `{ error: error.message }` of a 500 answer. -/
def errorBody (message : String) : JsVal := .obj [("error", .str message)]

/-- Lines 75-78: `GET /refresh`. -/
def getRefresh (w : World) (net : HttpOutcome) : Response × World × List Event :=
  let r := refreshAccessToken w net
  (.json 200 (.obj [("success", .bool r.1.success), ("message", .str r.1.message)]), r.2.1, r.2.2)

/-- The settings read from the environment at lines 10-12; `none` is a
    variable that is not set. -/
structure Credentials where
  client_id : Option String
  client_secret : Option String
  redirect_uri : Option String

/-- The characters `querystring.escape` leaves as they are. -/
def qsUnreserved (c : Char) : Bool :=
  (48 ≤ c.toNat && c.toNat ≤ 57) || (65 ≤ c.toNat && c.toNat ≤ 90) ||
  (97 ≤ c.toNat && c.toNat ≤ 122) ||
  c.toNat = 33 || c.toNat = 39 || c.toNat = 40 || c.toNat = 41 || c.toNat = 42 ||
  c.toNat = 45 || c.toNat = 46 || c.toNat = 95 || c.toNat = 126

/-- The upper-case hexadecimal digit of `n < 16`. -/
def upperHex (n : Nat) : Char :=
  if n < 10 then Char.ofNat (48 + n) else Char.ofNat (55 + n)

/-- `querystring.escape`: percent-encode the UTF-8 bytes of every character
    that is not unreserved. -/
def qsEscape (s : String) : String :=
  String.mk (s.data.flatMap fun c =>
    if qsUnreserved c then [c]
    else (String.utf8EncodeChar c).flatMap fun b =>
      ['%', upperHex (b.toNat / 16), upperHex (b.toNat % 16)])

/-- A value of `querystring.stringify`: a setting that is not set is written
    as the empty string. -/
def qsValue (v : Option String) : String :=
  match v with
  | some s => qsEscape s
  | none => ""

/-- Lines 82-89: the provider's authorize URL. -/
def authUrl (cfg : Credentials) : String :=
  "https://accounts.spotify.com/authorize?" ++
    "response_type=code" ++
    "&client_id=" ++ qsValue cfg.client_id ++
    "&scope=" ++ qsEscape "user-read-private user-read-email playlist-read-private" ++
    "&redirect_uri=" ++ qsValue cfg.redirect_uri

/-- Lines 81-91: `GET /login`. -/
def getLogin (cfg : Credentials) (w : World) : Response × World × List Event :=
  (.redirect (authUrl cfg), w, [])

/-- Lines 94-124: `GET /callback`.  `code` is `req.query.code` (`undefined`
    when the query has none) and `net` the outcome of the POST of line 98.
    The `catch` of line 120 receives the rejection of the POST and the
    TypeError of lines 113 and 114 alike. -/
def getCallback (w : World) (code : JsVal) (net : HttpOutcome) :
    Response × World × List Event :=
  match net with
  | .rejected _ message =>
    (.json 500 (errorBody message), w, [.tokenPost "authorization_code" (code.or .null)])
  | .resolved data =>
    match data.getProp "access_token" with
    | .error message =>
      (.json 500 (errorBody message), w, [.tokenPost "authorization_code" (code.or .null)])
    | .ok a =>
      match data.getProp "refresh_token" with
      | .error message =>
        (.json 500 (errorBody message), { w with access_token := a },
          [.tokenPost "authorization_code" (code.or .null)])
      | .ok r =>
        (.redirect "/playlists",
          (saveTokens { w with access_token := a, refresh_token := r }).1,
          .tokenPost "authorization_code" (code.or .null) ::
            (saveTokens { w with access_token := a, refresh_token := r }).2)

/-- The three constants of lines 156-158. -/
structure PlaylistSummary where
  imageUrl : JsVal
  playlistUrl : JsVal
  playlistName : JsVal

/-- The placeholder image of line 156. -/
def placeholderImage : String := "https://via.placeholder.com/200?text=No+Image"

/-- The chain `v?.[0]`. -/
def optIndex0 (v : JsVal) : Except String JsVal :=
  if v.nullish then .ok .undefined else v.getIndex0

/-- The chain `v?.k`. -/
def optProp (v : JsVal) (k : String) : Except String JsVal :=
  if v.nullish then .ok .undefined else v.getProp k

/-- Lines 156-158 for one element `p` of the list; an error is the TypeError
    thrown when `p` itself is `null`. -/
def summarize (p : JsVal) : Except String PlaylistSummary :=
  match p.getProp "images" with
  | .error m => .error m
  | .ok images =>
    match optIndex0 images with
    | .error m => .error m
    | .ok first =>
      match optProp first "url" with
      | .error m => .error m
      | .ok url =>
        match p.getProp "external_urls" with
        | .error m => .error m
        | .ok ext =>
          match optProp ext "spotify" with
          | .error m => .error m
          | .ok spotify =>
            match p.getProp "name" with
            | .error m => .error m
            | .ok name =>
              .ok { imageUrl := url.or (.str placeholderImage),
                    playlistUrl := spotify.or (.str "#"),
                    playlistName := name.or (.str "Untitled Playlist") }

/-- The template of lines 139-153. -/
def pageHead : String :=
  "\n            <html>\n            <head>\n                <title>My Spotify Playlists</title>\n                <style>\n                    body \x7b font-family: Arial, sans-serif; text-align: center; background: #121212; color: white; \x7d\n                    h1 \x7b margin-top: 20px; \x7d\n                    .playlist \x7b display: inline-block; margin: 15px; width: 200px; \x7d\n                    img \x7b width: 200px; height: 200px; border-radius: 8px; \x7d\n                    a \x7b text-decoration: none; color: #1DB954; font-weight: bold; display: block; margin-top: 8px; \x7d\n                </style>\n            </head>\n            <body>\n                <h1>🎵 My Spotify Playlists</h1>\n        "

/-- The template of lines 160-165 for one playlist. -/
def entryHtml (s : PlaylistSummary) : String :=
  "\n                <div class=\"playlist\">\n                    <img src=\"" ++ s.imageUrl.toStr ++
  "\" alt=\"Cover\" />\n                    <a href=\"" ++ s.playlistUrl.toStr ++
  "\" target=\"_blank\">" ++ s.playlistName.toStr ++
  "</a>\n                </div>\n            "

/-- The template of line 168. -/
def pageFoot : String := "</body></html>"

/-- Lines 155-166: `forEach` appends one entry per element to `html`, and
    stops at the first element that throws. -/
def renderEntries : List JsVal → String → Except String String
  | [], html => .ok html
  | p :: rest, html =>
    match summarize p with
    | .error m => .error m
    | .ok s => renderEntries rest (html ++ entryHtml s)

/-- Lines 137-168 on the response body `data`: the page, or the message of
    the TypeError thrown on the way. -/
def renderPage (data : JsVal) : Except String String :=
  match data.getProp "items" with
  | .error m => .error m
  | .ok items =>
    match items.or (.arr []) with
    | .arr playlists =>
      match renderEntries playlists pageHead with
      | .error m => .error m
      | .ok html => .ok (html ++ pageFoot)
    | _ => .error "playlists.forEach is not a function"

/-- Whether the `catch` of line 171 takes the branch of line 172:
    `error.response?.status === 401 && refresh_token`. -/
def shouldRefresh (status : Option Nat) (w : World) : Bool :=
  status == some 401 && w.refresh_token.truthy

/-- Lines 172-178: the `catch` of the playlists route, for an error with this
    `response?.status` and `message`; `events` are the effects so far and
    `refreshNet` the outcome of the POST the refresh makes. -/
def playlistsCatch (w : World) (status : Option Nat) (message : String)
    (events : List Event) (refreshNet : HttpOutcome) : Response × World × List Event :=
  if shouldRefresh status w then
    (.redirect "/playlists", (refreshAccessToken w refreshNet).2.1,
      events ++ (refreshAccessToken w refreshNet).2.2)
  else
    (.json 500 (errorBody message), w, events)

/-- Lines 127-180: `GET /playlists`.  `getNet` is the outcome of the GET of
    line 133 and `refreshNet` that of the POST of the refresh of line 174;
    each is used only when its request is made. -/
def getPlaylists (w : World) (getNet refreshNet : HttpOutcome) :
    Response × World × List Event :=
  if !w.access_token.truthy then
    (.redirect "/login", w, [])
  else
    match getNet with
    | .rejected status message =>
      playlistsCatch w status message [.playlistsGet w.access_token] refreshNet
    | .resolved data =>
      match renderPage data with
      | .ok html => (.send html, w, [.playlistsGet w.access_token])
      | .error message =>
        playlistsCatch w none message [.playlistsGet w.access_token] refreshNet

/-! ## Runs of the process -/

/-- The browser following the redirects of `/playlists`: it requests the route
    again for as long as the answer is a redirect to `/playlists`, at most
    `hops` more times.  `getNet i` and `refreshNet i` are the provider's
    outcomes during request number `i`. -/
def followPlaylists (getNet refreshNet : Nat → HttpOutcome) :
    Nat → Nat → World → Response × World × List Event
  | 0, i, w => getPlaylists w (getNet i) (refreshNet i)
  | hops + 1, i, w =>
    match getPlaylists w (getNet i) (refreshNet i) with
    | (.redirect location, w1, events) =>
      if location = "/playlists" then
        ((followPlaylists getNet refreshNet hops (i + 1) w1).1,
          (followPlaylists getNet refreshNet hops (i + 1) w1).2.1,
          events ++ (followPlaylists getNet refreshNet hops (i + 1) w1).2.2)
      else (.redirect location, w1, events)
    | answer => answer

/-- The number of POSTs to the token endpoint among the effects. -/
def countTokenPosts : List Event → Nat
  | [] => 0
  | .tokenPost _ _ :: rest => countTokenPosts rest + 1
  | _ :: rest => countTokenPosts rest

/-- The number of requests to the provider among the effects. -/
def countRequests : List Event → Nat
  | [] => 0
  | .fileWrite _ :: rest => countRequests rest
  | _ :: rest => countRequests rest + 1

/-- The contents written to `tokens.json`, in order. -/
def fileWrites : List Event → List String
  | [] => []
  | .fileWrite content :: rest => content :: fileWrites rest
  | _ :: rest => fileWrites rest

/-- One thing that happens to the running process. -/
inductive Request where
  /-- The refresh at startup, lines 67-72. -/
  | startup (net : HttpOutcome)
  /-- The interval of line 64 fires. -/
  | timer (net : HttpOutcome)
  /-- `GET /refresh`. -/
  | refresh (net : HttpOutcome)
  /-- `GET /login`. -/
  | login
  /-- `GET /callback?code=...`. -/
  | callback (code : JsVal) (net : HttpOutcome)
  /-- `GET /playlists`. -/
  | playlists (getNet refreshNet : HttpOutcome)

/-- The state after the process has served `req`, and the effects. -/
def serve (cfg : Credentials) (w : World) : Request → World × List Event
  | .startup net => startupRefresh w net
  | .timer net => (refreshAccessToken w net).2
  | .refresh net => (getRefresh w net).2
  | .login => (getLogin cfg w).2
  | .callback code net => (getCallback w code net).2
  | .playlists getNet refreshNet => (getPlaylists w getNet refreshNet).2

/-- The state after serving the requests in order. -/
def serveAll (cfg : Credentials) : World → List Request → World
  | w, [] => w
  | w, req :: rest => serveAll cfg (serve cfg w req).1 rest

/-- A token the way the data model types it, or missing: a string, `null` or
    `undefined`. -/
def tokenLike : JsVal → Bool
  | .undefined => true
  | .null => true
  | .str _ => true
  | _ => false

/-- A field of TokenState as the data model types it: a string or `null`. -/
def stringOrNull : JsVal → Bool
  | .null => true
  | .str _ => true
  | _ => false

/-- The answer to a refresh grant carries a token-like `access_token`. -/
def refreshTyped : HttpOutcome → Bool
  | .rejected _ _ => true
  | .resolved data =>
    match data.getProp "access_token" with
    | .ok a => tokenLike a
    | .error _ => true

/-- The answer to an authorization-code grant carries token-like
    `access_token` and `refresh_token`. -/
def exchangeTyped : HttpOutcome → Bool
  | .rejected _ _ => true
  | .resolved data =>
    match data.getProp "access_token", data.getProp "refresh_token" with
    | .ok a, .ok r => tokenLike a && tokenLike r
    | _, _ => true

/-- The provider's token answers during `req` carry token-like tokens. -/
def Request.typed : Request → Bool
  | .startup net => refreshTyped net
  | .timer net => refreshTyped net
  | .refresh net => refreshTyped net
  | .login => true
  | .callback _ net => exchangeTyped net
  | .playlists _ refreshNet => refreshTyped refreshNet

/-- The in-memory tokens equal the tokens on disk: loading the file (an
    absent file loads as all-null) gives back the state. -/
def Consistent (w : World) : Prop := loadTokens w.file = some w

/-- A token POST whose outcome reaches the `catch`: the POST is rejected, or
    it resolves with a body that is `null` or `undefined`, of which reading a
    token throws. -/
def tokenPostFails : HttpOutcome → Bool
  | .rejected _ _ => true
  | .resolved data => data.nullish

/-- A refresh outcome after which an access token is still present: the
    refresh fails, or it delivers a truthy `access_token`. -/
def refreshKeepsAccess : HttpOutcome → Bool
  | .rejected _ _ => true
  | .resolved data =>
    match data.getProp "access_token" with
    | .ok a => a.truthy
    | .error _ => true

/-- The number of GETs of the playlists endpoint among the effects. -/
def countPlaylistGets : List Event → Nat
  | [] => 0
  | .playlistsGet _ :: rest => countPlaylistGets rest + 1
  | _ :: rest => countPlaylistGets rest

/-- The strings one after the other. -/
def concatAll : List String → String
  | [] => ""
  | s :: rest => s ++ concatAll rest

/-- The step from `w` to `r.1` with effects `r.2` is write-through: either it
    wrote nothing and changed nothing, or it wrote the file once, with the
    text of the tokens it leaves in memory. -/
def WroteThrough (w : World) (r : World × List Event) : Prop :=
  (fileWrites r.2 = [] ∧ r.1 = w) ∨
  ∃ text, fileWrites r.2 = [text] ∧ r.1.file = some text ∧
    Json.stringify (tokenObject r.1) = some text

/-! ## The playlist mapping, in the words of the specification -/

/-- Field `k` of `v`, `undefined` when `v` has no such field. -/
def fieldOf (v : JsVal) (k : String) : JsVal :=
  match v with
  | .obj fields => JsVal.lookup k fields
  | _ => .undefined

/-- Element 0 of `v`, `undefined` when `v` has none. -/
def firstOf (v : JsVal) : JsVal :=
  match v with
  | .arr (x :: _) => x
  | .obj fields => JsVal.lookup "0" fields
  | .str s =>
    match s.data with
    | [] => .undefined
    | c :: _ => .str (String.singleton c)
  | _ => .undefined

/-- The value `v` if it is present, the default `d` if it is absent (`null`
    or missing): the mapping as the specification words it. -/
def presentOr (v : JsVal) (d : String) : JsVal := if v.nullish then .str d else v

/-- The summary the specification gives for the item `p`: each value if
    present, its default if absent. -/
def specSummary (p : JsVal) : PlaylistSummary :=
  { imageUrl := presentOr (fieldOf (firstOf (fieldOf p "images")) "url") placeholderImage,
    playlistUrl := presentOr (fieldOf (fieldOf p "external_urls") "spotify") "#",
    playlistName := presentOr (fieldOf p "name") "Untitled Playlist" }

/-- The value `v` if it is truthy, the default `d` otherwise: absent values,
    and the empty string, `0` and `false`, go to the default. -/
def truthyOr (v : JsVal) (d : String) : JsVal := if v.truthy then v else .str d

/-- The summary of the item `p` with every value that is not truthy replaced
    by its default. -/
def summaryOf (p : JsVal) : PlaylistSummary :=
  { imageUrl := truthyOr (fieldOf (firstOf (fieldOf p "images")) "url") placeholderImage,
    playlistUrl := truthyOr (fieldOf (fieldOf p "external_urls") "spotify") "#",
    playlistName := truthyOr (fieldOf p "name") "Untitled Playlist" }

/-- A value that is absent or truthy: on such values the specification's
    reading and the truthy reading agree. -/
def absentOrTruthy (v : JsVal) : Bool := v.nullish || v.truthy

/-! ## Lemmas on JSON text -/

namespace Json

theorem hex4_unicodeEscape : ∀ n, n < 32 →
    hex4 (hexDigit (n / 4096 % 16)) (hexDigit (n / 256 % 16)) (hexDigit (n / 16 % 16))
      (hexDigit (n % 16)) = some n := by
  decide

theorem char_eq_ofNat (c : Char) (n : Nat) (h : c.toNat = n) : Char.ofNat n = c := by
  subst h; exact Char.ofNat_toNat c

theorem parseStrBody_escape (e ch : Char) (tail : List Char) (hu : e ≠ 'u')
    (h : simpleEscape e = some ch) :
    parseStrBody (bs :: e :: tail) = consChar ch (parseStrBody tail) := by
  have h1 : bs ≠ dq := by decide
  simp only [parseStrBody, parseStrLoop, parseEscape, h1, if_false, if_true, hu, h]

theorem parseStrBody_plain (c : Char) (tail : List Char) (hdq : c ≠ dq) (hbs : c ≠ bs)
    (h32 : ¬ c.toNat < 32) :
    parseStrBody (c :: tail) = consChar c (parseStrBody tail) := by
  simp only [parseStrBody, parseStrLoop, hdq, hbs, h32, if_false]

theorem parseStrBody_unicode (n : Nat) (tail : List Char) (hn : n < 32) :
    parseStrBody (unicodeEscape n ++ tail) = consChar (Char.ofNat n) (parseStrBody tail) := by
  have h1 : bs ≠ dq := by decide
  have h2 : n < 55296 := by omega
  have h3 : parseEscape ('u' :: hexDigit (n / 4096 % 16) :: hexDigit (n / 256 % 16) ::
      hexDigit (n / 16 % 16) :: hexDigit (n % 16) :: tail) = some (Char.ofNat n, 5) := by
    simp only [parseEscape, if_true, hex4_unicodeEscape n hn, h2, true_or]
  show parseStrLoop 0 (bs :: 'u' :: hexDigit (n / 4096 % 16) :: hexDigit (n / 256 % 16) ::
      hexDigit (n / 16 % 16) :: hexDigit (n % 16) :: tail) = _
  rw [parseStrLoop]
  simp only [h1, if_false, if_true, h3, parseStrLoop, parseStrBody]

theorem parseStrBody_quoteChar (c : Char) (tail : List Char) :
    parseStrBody (quoteChar c ++ tail) = consChar c (parseStrBody tail) := by
  unfold quoteChar
  split_ifs with h8 h9 h10 h12 h13 hdq hbs h32
  · rw [← char_eq_ofNat c 8 h8]; exact parseStrBody_escape _ _ _ (by decide) (by decide)
  · rw [← char_eq_ofNat c 9 h9]; exact parseStrBody_escape _ _ _ (by decide) (by decide)
  · rw [← char_eq_ofNat c 10 h10]; exact parseStrBody_escape _ _ _ (by decide) (by decide)
  · rw [← char_eq_ofNat c 12 h12]; exact parseStrBody_escape _ _ _ (by decide) (by decide)
  · rw [← char_eq_ofNat c 13 h13]; exact parseStrBody_escape _ _ _ (by decide) (by decide)
  · subst hdq; exact parseStrBody_escape _ _ _ (by decide) (by decide)
  · subst hbs; exact parseStrBody_escape _ _ _ (by decide) (by decide)
  · have := parseStrBody_unicode c.toNat tail h32
    rwa [Char.ofNat_toNat] at this
  · exact parseStrBody_plain c tail hdq hbs h32

theorem parseStrBody_quoteBody (s tail : List Char) :
    parseStrBody (quoteBody s ++ dq :: tail) = some (s, tail) := by
  induction s with
  | nil => simp [quoteBody, parseStrBody, parseStrLoop]
  | cons c cs ih =>
    rw [quoteBody, List.append_assoc, parseStrBody_quoteChar, ih]; rfl


theorem skipWs_ws (c : Char) (cs : List Char) (h : isWs c = true) :
    skipWs (c :: cs) = skipWs cs := by
  simp [skipWs, h]

theorem skipWs_stop (c : Char) (cs : List Char) (h : isWs c = false) :
    skipWs (c :: cs) = c :: cs := by
  simp [skipWs, h]

theorem parseValue_ws (n : Nat) (c : Char) (cs : List Char) (h : isWs c = true) :
    parseValue n (c :: cs) = parseValue n cs := by
  cases n with
  | zero => simp [parseValue]
  | succ n => rw [parseValue, parseValue, skipWs_ws c cs h]

theorem parseMembers_ws (n : Nat) (acc : List (String × JsVal)) (c : Char) (cs : List Char)
    (h : isWs c = true) : parseMembers n acc (c :: cs) = parseMembers n acc cs := by
  cases n with
  | zero => simp [parseMembers]
  | succ n => rw [parseMembers, parseMembers, skipWs_ws c cs h]

theorem parseValue_str (n : Nat) (s : String) (tail : List Char) :
    parseValue (n + 1) (quote s ++ tail) = some (.str s, tail) := by
  have h1 : dq ≠ '{' := by decide
  have h2 : dq ≠ '[' := by decide
  have h3 : isWs dq = false := by decide
  simp only [quote, List.cons_append, List.append_assoc, List.nil_append, parseValue,
    skipWs_stop _ _ h3, h1, h2, if_false, if_true, parseStrBody_quoteBody]

theorem parseValue_null (n : Nat) (tail : List Char) :
    parseValue (n + 1) ('n' :: 'u' :: 'l' :: 'l' :: tail) = some (.null, tail) := by
  simp [parseValue, skipWs, isWs, dq, parseLiteral, stripWord]

theorem parseValue_object (n : Nat) (c : Char) (cs rest : List Char)
    (h : skipWs cs = c :: rest) (hc : c ≠ '}') :
    parseValue (n + 1) ('{' :: cs) = parseMembers n [] (c :: rest) := by
  have h3 : isWs '{' = false := by decide
  simp only [parseValue, skipWs_stop _ _ h3, if_true, h, hc, if_false]

theorem parseMembers_member (n : Nat) (acc : List (String × JsVal)) (k : String)
    (cs : List Char) :
    parseMembers (n + 1) acc (quote k ++ ':' :: cs) =
      match parseValue n cs with
      | none => none
      | some (v, rest3) =>
        match skipWs rest3 with
        | [] => none
        | c2 :: rest4 =>
          if c2 = ',' then parseMembers n (setField k v acc) rest4
          else if c2 = '}' then some (.obj (setField k v acc), rest4)
          else none := by
  have h3 : isWs dq = false := by decide
  have h4 : isWs ':' = false := by decide
  simp only [quote, List.cons_append, List.append_assoc, List.nil_append, parseMembers,
    skipWs_stop _ _ h3, skipWs_stop _ _ h4, if_true, parseStrBody_quoteBody]

theorem skipWs_length (cs : List Char) : (skipWs cs).length ≤ cs.length := by
  induction cs with
  | nil => simp [skipWs]
  | cons c cs ih =>
    rw [skipWs]; split
    · simp; omega
    · simp

theorem skipWs_cons_length (cs rest : List Char) (c : Char) (h : skipWs cs = c :: rest) :
    rest.length < cs.length := by
  have := skipWs_length cs
  rw [h] at this
  simpa using this

theorem consChar_some (c : Char) (r : Option (List Char × List Char)) (s rest : List Char)
    (h : consChar c r = some (s, rest)) : ∃ s1, r = some (s1, rest) := by
  cases r with
  | none => simp [consChar] at h
  | some p =>
    obtain ⟨s1, r1⟩ := p
    simp [consChar] at h
    exact ⟨s1, by rw [h.2]⟩

theorem parseStrLoop_length (cs : List Char) :
    ∀ (k : Nat) (s rest : List Char), parseStrLoop k cs = some (s, rest) →
      rest.length < cs.length := by
  induction cs with
  | nil => intro k s rest h; cases k <;> simp [parseStrLoop] at h
  | cons c cs ih =>
    intro k s rest h
    cases k with
    | succ k =>
      rw [parseStrLoop] at h
      have := ih k s rest h
      simp; omega
    | zero =>
      rw [parseStrLoop] at h
      split at h
      · simp at h; simp [h.2]
      · split at h
        · split at h
          · simp at h
          · obtain ⟨s1, h1⟩ := consChar_some _ _ _ _ h
            have := ih _ _ _ h1
            simp; omega
        · split at h
          · simp at h
          · obtain ⟨s1, h1⟩ := consChar_some _ _ _ _ h
            have := ih _ _ _ h1
            simp; omega

theorem digitsVal_length (cs : List Char) :
    ∀ acc, (digitsVal cs acc).2.length ≤ cs.length := by
  induction cs with
  | nil => intro acc; simp [digitsVal]
  | cons c cs ih =>
    intro acc
    rw [digitsVal]; split
    · have := ih (acc * 10 + (c.toNat - 48)); simp; omega
    · simp

theorem parseNat_length (cs rest : List Char) (n : Nat) (h : parseNat cs = some (n, rest)) :
    rest.length < cs.length := by
  cases cs with
  | nil => simp [parseNat] at h
  | cons c cs =>
    rw [parseNat] at h
    split at h
    · simp at h; simp [h.2]
    · split at h
      · simp at h
        have := digitsVal_length cs (c.toNat - 48)
        rw [h] at this
        simp at this ⊢; omega
      · simp at h

theorem parseNumber_length (cs rest : List Char) (v : JsVal)
    (h : parseNumber cs = some (v, rest)) : rest.length < cs.length := by
  cases cs with
  | nil => simp [parseNumber] at h
  | cons c cs =>
    rw [parseNumber] at h
    split at h
    · simp at h
    · rename_i n rest1 hn
      split at h
      · simp at h
      · simp at h
        rw [← h.2]
        split at hn
        · have := parseNat_length _ _ _ hn; simp; omega
        · exact parseNat_length _ _ _ hn

theorem stripWord_length (word : List Char) :
    ∀ cs rest, stripWord word cs = some rest → rest.length + word.length = cs.length := by
  induction word with
  | nil => intro cs rest h; simp [stripWord] at h; simp [h]
  | cons w ws ih =>
    intro cs rest h
    cases cs with
    | nil => simp [stripWord] at h
    | cons c cs =>
      rw [stripWord] at h
      split at h
      · have := ih cs rest h; simp; omega
      · simp at h

theorem parseLiteral_length (word : List Char) (v v1 : JsVal) (cs rest : List Char)
    (hw : word ≠ []) (h : parseLiteral word v cs = some (v1, rest)) :
    rest.length < cs.length := by
  unfold parseLiteral at h
  split at h
  · simp at h
  · rename_i r hr
    simp at h
    have := stripWord_length word cs r hr
    have hpos : 0 < word.length := List.length_pos.mpr hw
    rw [← h.2]; omega

theorem parse_lengths (n : Nat) :
    (∀ cs v rest, parseValue n cs = some (v, rest) → rest.length < cs.length) ∧
    (∀ acc cs v rest, parseMembers n acc cs = some (v, rest) → rest.length < cs.length) ∧
    (∀ acc cs v rest, parseElems n acc cs = some (v, rest) → rest.length < cs.length) := by
  induction n with
  | zero => simp [parseValue, parseMembers, parseElems]
  | succ n ih =>
    obtain ⟨ihV, ihM, ihE⟩ := ih
    refine ⟨?_, ?_, ?_⟩
    · intro cs v rest h
      rw [parseValue] at h
      split at h
      · simp at h
      · rename_i c r hs
        have h0 := skipWs_cons_length cs r c hs
        split at h
        · split at h
          · simp at h
          · rename_i c1 r1 hs1
            have h1 := skipWs_cons_length r r1 c1 hs1
            split at h
            · simp at h; rw [← h.2]; omega
            · have := ihM _ _ _ _ h; simp at this; omega
        · split at h
          · split at h
            · simp at h
            · rename_i c1 r1 hs1
              have h1 := skipWs_cons_length r r1 c1 hs1
              split at h
              · simp at h; rw [← h.2]; omega
              · have := ihE _ _ _ _ h; simp at this; omega
          · split at h
            · split at h
              · simp at h
              · rename_i s r1 hp
                have := parseStrLoop_length _ _ _ _ hp
                simp at h; rw [← h.2]; omega
            · split at h
              · have := parseLiteral_length _ _ _ _ _ (by simp) h; simp at this; omega
              · split at h
                · have := parseLiteral_length _ _ _ _ _ (by simp) h; simp at this; omega
                · split at h
                  · have := parseLiteral_length _ _ _ _ _ (by simp) h; simp at this; omega
                  · have := parseNumber_length _ _ _ h; simp at this; omega
    · intro acc cs v rest h
      rw [parseMembers] at h
      split at h
      · simp at h
      · rename_i c r hs
        have h0 := skipWs_cons_length cs r c hs
        split at h
        · split at h
          · simp at h
          · rename_i k r1 hp
            have h1 := parseStrLoop_length _ _ _ _ hp
            split at h
            · simp at h
            · rename_i c1 r2 hs2
              have h2 := skipWs_cons_length r1 r2 c1 hs2
              split at h
              · split at h
                · simp at h
                · rename_i v1 r3 hv
                  have h3 := ihV _ _ _ hv
                  split at h
                  · simp at h
                  · rename_i c2 r4 hs4
                    have h4 := skipWs_cons_length r3 r4 c2 hs4
                    split at h
                    · have := ihM _ _ _ _ h; omega
                    · split at h
                      · simp at h; rw [← h.2]; omega
                      · simp at h
              · simp at h
        · simp at h
    · intro acc cs v rest h
      rw [parseElems] at h
      split at h
      · simp at h
      · rename_i v1 r hv
        have h0 := ihV _ _ _ hv
        split at h
        · simp at h
        · rename_i c r1 hs
          have h1 := skipWs_cons_length r r1 c hs
          split at h
          · have := ihE _ _ _ _ h; omega
          · split at h
            · simp at h; rw [← h.2]; omega
            · simp at h

theorem parse_fuel (n : Nat) :
    (∀ m cs, 2 * cs.length + 1 ≤ n → 2 * cs.length + 1 ≤ m →
      parseValue n cs = parseValue m cs) ∧
    (∀ m acc cs, 2 * cs.length + 2 ≤ n → 2 * cs.length + 2 ≤ m →
      parseMembers n acc cs = parseMembers m acc cs) ∧
    (∀ m acc cs, 2 * cs.length + 2 ≤ n → 2 * cs.length + 2 ≤ m →
      parseElems n acc cs = parseElems m acc cs) := by
  induction n with
  | zero => exact ⟨fun m cs h => by omega, fun m acc cs h => by omega, fun m acc cs h => by omega⟩
  | succ n ih =>
    obtain ⟨ihV, ihM, ihE⟩ := ih
    refine ⟨?_, ?_, ?_⟩
    · intro m cs hn hm
      cases m with
      | zero => omega
      | succ m =>
        rw [parseValue, parseValue]
        split
        · rfl
        · rename_i c r hs
          have h0 := skipWs_cons_length cs r c hs
          split
          · split
            · rfl
            · rename_i c1 r1 hs1
              have h1 := skipWs_cons_length r r1 c1 hs1
              split
              · rfl
              · exact ihM m _ _ (by simp; omega) (by simp; omega)
          · split
            · split
              · rfl
              · rename_i c1 r1 hs1
                have h1 := skipWs_cons_length r r1 c1 hs1
                split
                · rfl
                · exact ihE m _ _ (by simp; omega) (by simp; omega)
            · rfl
    · intro m acc cs hn hm
      cases m with
      | zero => omega
      | succ m =>
        rw [parseMembers, parseMembers]
        split
        · rfl
        · rename_i c r hs
          have h0 := skipWs_cons_length cs r c hs
          split
          · split
            · rfl
            · rename_i k r1 hp
              have h1 := parseStrLoop_length _ _ _ _ hp
              split
              · rfl
              · rename_i c1 r2 hs2
                have h2 := skipWs_cons_length r1 r2 c1 hs2
                split
                · rw [ihV m r2 (by omega) (by omega)]
                  split
                  · rfl
                  · rename_i v1 r3 hv
                    have h3 := (parse_lengths m).1 _ _ _ hv
                    split
                    · rfl
                    · rename_i c2 r4 hs4
                      have h4 := skipWs_cons_length r3 r4 c2 hs4
                      split
                      · exact ihM m _ _ (by omega) (by omega)
                      · rfl
                · rfl
          · rfl
    · intro m acc cs hn hm
      cases m with
      | zero => omega
      | succ m =>
        rw [parseElems, parseElems, ihV m cs (by omega) (by omega)]
        split
        · rfl
        · rename_i v1 r hv
          have h0 := (parse_lengths m).1 _ _ _ hv
          split
          · rfl
          · rename_i c r1 hs
            have h1 := skipWs_cons_length r r1 c hs
            split
            · exact ihE m _ _ (by omega) (by omega)
            · rfl

/-- The fuel `parse` gives is enough: any larger fuel gives the same result. -/
theorem parseValue_fuel (cs : List Char) (m : Nat) (h : 2 * cs.length + 1 ≤ m) :
    parseValue m cs = parseValue (2 * cs.length + 1) cs :=
  ((parse_fuel m).1 (2 * cs.length + 1) cs h (Nat.le_refl _))

theorem parse_mk (cs : List Char) (v : JsVal) (k : Nat)
    (h : ∀ n, parseValue (n + k) cs = some (v, [])) (hlen : k ≤ 2 * cs.length + 1) :
    parse (String.mk cs) = some v := by
  obtain ⟨n, hn⟩ : ∃ n, 2 * cs.length + 1 = n + k := ⟨2 * cs.length + 1 - k, by omega⟩
  simp [parse, hn, h n, skipWs]

theorem text_of_tokenLike (v : JsVal) (h : tokenLike v = true) (hd : v ≠ .undefined) :
    ∃ vt, (∀ ind, serialize ind v = some vt) ∧
      ∀ n tail, parseValue (n + 1) (vt ++ tail) = some (v, tail) := by
  cases v with
  | undefined => exact absurd rfl hd
  | null => exact ⟨_, fun _ => rfl, fun n tail => parseValue_null n tail⟩
  | str s => exact ⟨_, fun _ => by rw [serialize], fun n tail => parseValue_str n s tail⟩
  | bool b => simp [tokenLike] at h
  | num n => simp [tokenLike] at h
  | arr xs => simp [tokenLike] at h
  | obj fs => simp [tokenLike] at h

theorem parseMembers_last (n : Nat) (acc : List (String × JsVal)) (k : String) (v : JsVal)
    (vt tail : List Char) (hv : ∀ m tl, parseValue (m + 1) (vt ++ tl) = some (v, tl)) :
    parseMembers (n + 2) acc (quote k ++ ':' :: ' ' :: (vt ++ nl :: '}' :: tail)) =
      some (.obj (setField k v acc), tail) := by
  rw [parseMembers_member, parseValue_ws _ _ _ (by decide), hv]
  simp [skipWs, isWs, nl]

theorem parseMembers_next (n : Nat) (acc : List (String × JsVal)) (k : String) (v : JsVal)
    (vt tail : List Char) (hv : ∀ m tl, parseValue (m + 1) (vt ++ tl) = some (v, tl)) :
    parseMembers (n + 2) acc (quote k ++ ':' :: ' ' :: (vt ++ ',' :: nl :: ' ' :: ' ' :: tail)) =
      parseMembers (n + 1) (setField k v acc) tail := by
  rw [parseMembers_member, parseValue_ws _ _ _ (by decide), hv]
  have h1 : isWs ',' = false := by decide
  simp only [skipWs_stop _ _ h1, if_true]
  rw [parseMembers_ws _ _ _ _ (by decide), parseMembers_ws _ _ _ _ (by decide),
    parseMembers_ws _ _ _ _ (by decide)]

theorem parseValue_open (n : Nat) (k : String) (tail : List Char) :
    parseValue (n + 1) ('{' :: nl :: ' ' :: ' ' :: (quote k ++ tail)) =
      parseMembers n [] (quote k ++ tail) := by
  rw [parseValue_object n dq (nl :: ' ' :: ' ' :: (quote k ++ tail))
    (quoteBody k.data ++ dq :: tail) (by simp [skipWs, isWs, nl, quote, dq]) (by decide)]
  simp [quote]

/-- The text `saveTokens` writes for two tokens that are strings, `null` or
    `undefined` parses to an object whose two fields are those tokens. -/
theorem parse_stringify_tokens (a r : JsVal) (ha : tokenLike a = true)
    (hr : tokenLike r = true) :
    ∃ text fields,
      stringify (.obj [("access_token", a), ("refresh_token", r)]) = some text ∧
      parse text = some (.obj fields) ∧
      JsVal.lookup "access_token" fields = a ∧ JsVal.lookup "refresh_token" fields = r := by
  by_cases hda : a = .undefined <;> by_cases hdr : r = .undefined
  · subst hda; subst hdr
    exact ⟨_, [], rfl, by rfl, rfl, rfl⟩
  · subst hda
    obtain ⟨rt, hrs, hrp⟩ := text_of_tokenLike r hr hdr
    refine ⟨_, [("refresh_token", r)], rfl, ?_, rfl, by simp [JsVal.lookup]⟩
    simp only [serialize, serializeMembers, hrs, wrap, joinWith, gap, List.nil_append,
      List.cons_append, List.append_assoc]
    apply parse_mk _ _ 3
    · intro n
      rw [parseValue_open, parseMembers_last _ _ _ r _ _ hrp]; rfl
    · simp
  · subst hdr
    obtain ⟨at_, has, hap⟩ := text_of_tokenLike a ha hda
    refine ⟨_, [("access_token", a)], rfl, ?_, by simp [JsVal.lookup], rfl⟩
    simp only [serialize, serializeMembers, has, wrap, joinWith, gap, List.nil_append,
      List.cons_append, List.append_assoc]
    apply parse_mk _ _ 3
    · intro n
      rw [parseValue_open, parseMembers_last _ _ _ a _ _ hap]; rfl
    · simp
  · obtain ⟨at_, has, hap⟩ := text_of_tokenLike a ha hda
    obtain ⟨rt, hrs, hrp⟩ := text_of_tokenLike r hr hdr
    refine ⟨_, [("access_token", a), ("refresh_token", r)], rfl, ?_,
      by simp [JsVal.lookup], by simp [JsVal.lookup]⟩
    simp only [serialize, serializeMembers, has, hrs, wrap, joinWith, gap, List.nil_append,
      List.cons_append, List.append_assoc]
    apply parse_mk _ _ 4
    · intro n
      rw [parseValue_open, parseMembers_next _ _ _ a _ _ hap,
        parseMembers_last _ _ _ r _ _ hrp]
      simp [setField]
    · simp; omega
end Json

/-! ## Lemmas on the token store -/

theorem stringify_tokenObject (w : World) :
    ∃ text, Json.stringify (tokenObject w) = some text := ⟨_, rfl⟩

theorem saveTokens_of_stringify (w : World) (text : String)
    (h : Json.stringify (tokenObject w) = some text) :
    saveTokens w = ({ w with file := some text }, [.fileWrite text]) := by
  simp [saveTokens, h]

theorem loadTokens_of_stringify (a r : JsVal) (f : Option String) (text : String)
    (ha : tokenLike a = true) (hr : tokenLike r = true)
    (h : Json.stringify (tokenObject { access_token := a, refresh_token := r, file := f }) =
      some text) :
    loadTokens (some text) = some { access_token := a, refresh_token := r, file := some text } := by
  obtain ⟨text1, fields, h1, h2, h3, h4⟩ := Json.parse_stringify_tokens a r ha hr
  have : text1 = text := by
    have := h1.symm.trans h
    simpa using this
  subst this
  simp [loadTokens, h2, JsVal.getProp, h3, h4]

theorem tokenLike_of_stringOrNull (v : JsVal) (h : stringOrNull v = true) :
    tokenLike v = true := by
  cases v <;> simp_all [stringOrNull, tokenLike]

/-! ## The claims -/

/-- C1: with a refresh token present and an HTTP success carrying the access
    token `a2`, `refreshAccessToken` makes one POST, leaves the state as
    `{a2, R}` with the refresh token unchanged, writes the text of exactly that
    state to the file, and returns `success = true`; when `a2` and `R` are
    token-like, loading the written file gives that state back. -/
theorem refresh_success_replaces_access_token (w : World) (data a2 : JsVal)
    (hR : w.refresh_token.truthy = true) (hA : data.getProp "access_token" = .ok a2) :
    ∃ text,
      Json.stringify (.obj [("access_token", a2), ("refresh_token", w.refresh_token)]) =
        some text ∧
      refreshAccessToken w (.resolved data) =
        ({ success := true, message := "Access token refreshed" },
          { access_token := a2, refresh_token := w.refresh_token, file := some text },
          [.tokenPost "refresh_token" w.refresh_token, .fileWrite text]) ∧
      (tokenLike a2 = true → tokenLike w.refresh_token = true →
        loadTokens (some text) =
          some { access_token := a2, refresh_token := w.refresh_token, file := some text }) := by
  obtain ⟨text, ht⟩ := stringify_tokenObject { w with access_token := a2 }
  refine ⟨text, ht, ?_, fun ha hr => loadTokens_of_stringify a2 w.refresh_token w.file text ha hr ht⟩
  simp [refreshAccessToken, hR, hA, saveTokens_of_stringify _ text ht]

/-- C1, the scenario of the specification: the file holds
    `{"access_token":"A","refresh_token":"R"}`, the load gives `{A, R}`, the
    refresh returns `"A2"`; state and file become `{A2, R}`. -/
theorem refresh_success_replaces_access_token_witness :
    loadTokens (some "\x7b\"access_token\":\"A\",\"refresh_token\":\"R\"\x7d") =
      some { access_token := .str "A", refresh_token := .str "R",
             file := some "\x7b\"access_token\":\"A\",\"refresh_token\":\"R\"\x7d" } ∧
    Json.stringify (.obj [("access_token", .str "A2"), ("refresh_token", .str "R")]) =
      some "\x7b\n  \"access_token\": \"A2\",\n  \"refresh_token\": \"R\"\n\x7d" ∧
    ∃ text,
      Json.stringify (.obj [("access_token", .str "A2"), ("refresh_token", .str "R")]) =
        some text ∧
      refreshAccessToken
          { access_token := .str "A", refresh_token := .str "R",
            file := some "\x7b\"access_token\":\"A\",\"refresh_token\":\"R\"\x7d" }
          (.resolved (.obj [("access_token", .str "A2")])) =
        ({ success := true, message := "Access token refreshed" },
          { access_token := .str "A2", refresh_token := .str "R", file := some text },
          [.tokenPost "refresh_token" (.str "R"), .fileWrite text]) ∧
      (tokenLike (.str "A2") = true → tokenLike (.str "R") = true →
        loadTokens (some text) =
          some { access_token := .str "A2", refresh_token := .str "R", file := some text }) :=
  ⟨rfl, rfl, refresh_success_replaces_access_token
    { access_token := .str "A", refresh_token := .str "R",
      file := some "\x7b\"access_token\":\"A\",\"refresh_token\":\"R\"\x7d" }
    (.obj [("access_token", .str "A2")]) (.str "A2") rfl rfl⟩

/-- C2: with no refresh token present (`null`, `undefined`, the empty string,
    any falsy value) `refreshAccessToken` performs no effect at all (no
    request, no write), leaves the state as it is and returns
    `{success: false, message: "No refresh token"}`. -/
theorem refresh_without_refresh_token (w : World) (net : HttpOutcome)
    (h : w.refresh_token.truthy = false) :
    refreshAccessToken w net = ({ success := false, message := "No refresh token" }, w, []) := by
  simp [refreshAccessToken, h]

/-- C2 at the three absent refresh tokens the claim lists. -/
theorem refresh_without_refresh_token_witness :
    refreshAccessToken { access_token := .str "A", refresh_token := .null, file := none }
        (.resolved (.obj [("access_token", .str "A2")])) =
      ({ success := false, message := "No refresh token" },
        { access_token := .str "A", refresh_token := .null, file := none }, []) ∧
    refreshAccessToken { access_token := .str "A", refresh_token := .undefined, file := none }
        (.resolved (.obj [("access_token", .str "A2")])) =
      ({ success := false, message := "No refresh token" },
        { access_token := .str "A", refresh_token := .undefined, file := none }, []) ∧
    refreshAccessToken { access_token := .str "A", refresh_token := .str "", file := none }
        (.resolved (.obj [("access_token", .str "A2")])) =
      ({ success := false, message := "No refresh token" },
        { access_token := .str "A", refresh_token := .str "", file := none }, []) :=
  ⟨refresh_without_refresh_token _ _ rfl, refresh_without_refresh_token _ _ rfl,
    refresh_without_refresh_token _ _ rfl⟩

/-- C7: with no access token present the playlists route answers with a
    redirect to `/login` (not an error status), performs no effect at all (no
    GET, no refresh, no write) and leaves the state as it is. -/
theorem playlists_without_access_token (w : World) (getNet refreshNet : HttpOutcome)
    (h : w.access_token.truthy = false) :
    getPlaylists w getNet refreshNet = (.redirect "/login", w, []) := by
  simp [getPlaylists, h]

/-- C7 at the state of a process started without a file. -/
theorem playlists_without_access_token_witness :
    getPlaylists { access_token := .null, refresh_token := .null, file := none }
        (.resolved (.obj [("items", .arr [])])) (.rejected (some 400) "Bad Request") =
      (.redirect "/login", { access_token := .null, refresh_token := .null, file := none }, []) :=
  playlists_without_access_token _ _ _ rfl

/-- C9: for tokens `a` and `r` that are each a string or `null`, and whatever
    the state `w0` before, saving `{a, r}` writes a text, and loading that text
    as the startup does gives the state `{a, r}` back. -/
theorem save_then_load (w0 : World) (a r : JsVal)
    (ha : stringOrNull a = true) (hr : stringOrNull r = true) :
    ∃ text,
      saveTokens { w0 with access_token := a, refresh_token := r } =
        ({ access_token := a, refresh_token := r, file := some text }, [.fileWrite text]) ∧
      loadTokens (some text) = some { access_token := a, refresh_token := r, file := some text } := by
  obtain ⟨text, ht⟩ := stringify_tokenObject { w0 with access_token := a, refresh_token := r }
  exact ⟨text, saveTokens_of_stringify _ text ht,
    loadTokens_of_stringify a r w0.file text (tokenLike_of_stringOrNull a ha)
      (tokenLike_of_stringOrNull r hr) ht⟩

/-- C9 at a token with characters that JSON escapes, saved over a state loaded
    from another file. -/
theorem save_then_load_witness :
    ∃ text,
      saveTokens { access_token := .str "a\"b\\c\nd", refresh_token := .null,
                   file := some "\x7b\"access_token\":\"old\"\x7d" } =
        ({ access_token := .str "a\"b\\c\nd", refresh_token := .null, file := some text },
          [.fileWrite text]) ∧
      loadTokens (some text) =
        some { access_token := .str "a\"b\\c\nd", refresh_token := .null, file := some text } :=
  save_then_load { access_token := .str "old", refresh_token := .undefined,
                   file := some "\x7b\"access_token\":\"old\"\x7d" }
    (.str "a\"b\\c\nd") .null rfl rfl

theorem getProp_of_not_nullish (v : JsVal) (k : String) (h : v.nullish = false) :
    v.getProp k = .ok (fieldOf v k) := by
  cases v <;> simp_all [JsVal.nullish, JsVal.getProp, fieldOf]

theorem getProp_of_nullish (v : JsVal) (k : String) (h : v.nullish = true) :
    v.getProp k = .error (JsVal.typeErrorMessage v k) := by
  cases v <;> simp_all [JsVal.nullish, JsVal.getProp]

theorem getCallback_of_nullish (w : World) (code data : JsVal) (h : data.nullish = true) :
    getCallback w code (.resolved data) =
      (.json 500 (.obj [("error", .str (JsVal.typeErrorMessage data "access_token"))]), w,
        [.tokenPost "authorization_code" (code.or .null)]) := by
  simp [getCallback, getProp_of_nullish data _ h, errorBody]

theorem getCallback_of_not_nullish (w : World) (code data : JsVal) (text : String)
    (h : data.nullish = false)
    (ht : Json.stringify (tokenObject
      { access_token := fieldOf data "access_token",
        refresh_token := fieldOf data "refresh_token", file := w.file }) = some text) :
    getCallback w code (.resolved data) =
      (.redirect "/playlists",
        { access_token := fieldOf data "access_token",
          refresh_token := fieldOf data "refresh_token", file := some text },
        [.tokenPost "authorization_code" (code.or .null), .fileWrite text]) := by
  simp [getCallback, getProp_of_not_nullish data _ h, saveTokens_of_stringify _ text ht]

/-- C3, as the code has it: with a refresh token present, a POST that is
    rejected, or that resolves with a `null` or `undefined` body, gives
    `{success: false, message: "Refresh failed"}` after the one POST, with the
    state and the file unchanged and nothing written; every other outcome is a
    resolved POST with a body `data`, and it is treated as a success even when
    `data` has no `access_token`: the access token becomes `data.access_token`
    (possibly `undefined`), the file is rewritten and `success` is `true`.
    Every outcome gives one of these two structured results. -/
theorem refresh_failure_keeps_state (w : World) (net : HttpOutcome)
    (hR : w.refresh_token.truthy = true) :
    (tokenPostFails net = true →
      refreshAccessToken w net =
        ({ success := false, message := "Refresh failed" }, w,
          [.tokenPost "refresh_token" w.refresh_token])) ∧
    (tokenPostFails net = false →
      ∃ data text, net = .resolved data ∧
        Json.stringify (.obj [("access_token", fieldOf data "access_token"),
          ("refresh_token", w.refresh_token)]) = some text ∧
        refreshAccessToken w net =
          ({ success := true, message := "Access token refreshed" },
            { access_token := fieldOf data "access_token", refresh_token := w.refresh_token,
              file := some text },
            [.tokenPost "refresh_token" w.refresh_token, .fileWrite text])) := by
  cases net with
  | rejected status message =>
    refine ⟨fun _ => by simp [refreshAccessToken, hR], fun h => by simp [tokenPostFails] at h⟩
  | resolved data =>
    constructor
    · intro h
      simp [refreshAccessToken, hR, getProp_of_nullish data _ h]
    · intro h
      obtain ⟨text, ht⟩ := stringify_tokenObject
        { w with access_token := fieldOf data "access_token" }
      refine ⟨data, text, rfl, ht, ?_⟩
      simp [refreshAccessToken, hR, getProp_of_not_nullish data _ h,
        saveTokens_of_stringify _ text ht]

/-- C3 at a rejected POST (HTTP 400) and at a resolved one with a full body. -/
theorem refresh_failure_keeps_state_witness :
    refreshAccessToken { access_token := .str "A", refresh_token := .str "R", file := none }
        (.rejected (some 400) "Request failed with status code 400") =
      ({ success := false, message := "Refresh failed" },
        { access_token := .str "A", refresh_token := .str "R", file := none },
        [.tokenPost "refresh_token" (.str "R")]) :=
  (refresh_failure_keeps_state
    { access_token := .str "A", refresh_token := .str "R", file := none }
    (.rejected (some 400) "Request failed with status code 400") rfl).1 rfl

/-- C3 fails as stated: an HTTP success whose body carries no `access_token`
    is not a failure.  The refresh returns `success = true`, the access token
    `"A"` is replaced by `undefined` and the file is rewritten without it. -/
theorem refresh_body_without_access_token :
    refreshAccessToken
        { access_token := .str "A", refresh_token := .str "R",
          file := some "\x7b\"access_token\":\"A\",\"refresh_token\":\"R\"\x7d" }
        (.resolved (.obj [("token_type", .str "Bearer")])) =
      ({ success := true, message := "Access token refreshed" },
        { access_token := .undefined, refresh_token := .str "R",
          file := some "\x7b\n  \"refresh_token\": \"R\"\n\x7d" },
        [.tokenPost "refresh_token" (.str "R"),
          .fileWrite "\x7b\n  \"refresh_token\": \"R\"\n\x7d"]) := by
  rfl

/-- C4, as the code has it: when the POST of the exchange resolves with a body
    `data` that is not `null` or `undefined`, both tokens are replaced by the
    fields `access_token` and `refresh_token` of `data` (`undefined` for a
    field `data` lacks), the file is rewritten with the text of exactly that
    state (loading it gives the state back when both are token-like), and the
    answer is a redirect to `/playlists`; when the POST is rejected, or
    resolves with a `null` or `undefined` body, the state and the file are
    unchanged, nothing is written, and the answer is a 500 with a JSON
    `{error}` body. -/
theorem callback_exchange (w : World) (code : JsVal) :
    (∀ data, data.nullish = false →
      ∃ text,
        Json.stringify (.obj [("access_token", fieldOf data "access_token"),
          ("refresh_token", fieldOf data "refresh_token")]) = some text ∧
        getCallback w code (.resolved data) =
          (.redirect "/playlists",
            { access_token := fieldOf data "access_token",
              refresh_token := fieldOf data "refresh_token", file := some text },
            [.tokenPost "authorization_code" (code.or .null), .fileWrite text]) ∧
        (tokenLike (fieldOf data "access_token") = true →
          tokenLike (fieldOf data "refresh_token") = true →
          loadTokens (some text) =
            some { access_token := fieldOf data "access_token",
                   refresh_token := fieldOf data "refresh_token", file := some text })) ∧
    (∀ status message,
      getCallback w code (.rejected status message) =
        (.json 500 (.obj [("error", .str message)]), w,
          [.tokenPost "authorization_code" (code.or .null)])) ∧
    (∀ data, data.nullish = true →
      ∃ message,
        getCallback w code (.resolved data) =
          (.json 500 (.obj [("error", .str message)]), w,
            [.tokenPost "authorization_code" (code.or .null)])) := by
  refine ⟨fun data h => ?_, fun status message => rfl, fun data h => ?_⟩
  · obtain ⟨text, ht⟩ := stringify_tokenObject
      { access_token := fieldOf data "access_token",
        refresh_token := fieldOf data "refresh_token", file := w.file }
    exact ⟨text, ht, getCallback_of_not_nullish w code data text h ht,
      fun ha hr => loadTokens_of_stringify _ _ w.file text ha hr ht⟩
  · exact ⟨_, getCallback_of_nullish w code data h⟩

/-- C4 fails as stated: an HTTP success whose body carries an `access_token`
    and no `refresh_token` still redirects to `/playlists`, and the refresh
    token of the resulting state is `undefined`, not present. -/
theorem callback_body_without_refresh_token :
    getCallback { access_token := .null, refresh_token := .null, file := none } (.str "abc")
        (.resolved (.obj [("access_token", .str "A")])) =
      (.redirect "/playlists",
        { access_token := .str "A", refresh_token := .undefined,
          file := some "\x7b\n  \"access_token\": \"A\"\n\x7d" },
        [.tokenPost "authorization_code" (.str "abc"),
          .fileWrite "\x7b\n  \"access_token\": \"A\"\n\x7d"]) ∧
    JsVal.truthy .undefined = false := by
  exact ⟨rfl, rfl⟩

/-- C5, as the code has it: for a request whose query carries no code or an
    empty one, the handler sends `null` as the code: it makes exactly one
    request, the authorization-code POST with code `null`, and behaves as it
    does for the code `null`; when the provider rejects that POST the state
    and the file are unchanged and the answer is a 500 with a JSON `{error}`
    body. -/
theorem callback_without_code (w : World) (code : JsVal) (net : HttpOutcome)
    (h : code.truthy = false) :
    getCallback w code net = getCallback w .null net ∧
    (getCallback w code net).2.2.head? = some (.tokenPost "authorization_code" .null) ∧
    countRequests (getCallback w code net).2.2 = 1 ∧
    (∀ status message, net = .rejected status message →
      getCallback w code net =
        (.json 500 (.obj [("error", .str message)]), w,
          [.tokenPost "authorization_code" .null])) := by
  have hc : code.or .null = .null := by simp [JsVal.or, h]
  have hn : JsVal.null.or .null = .null := rfl
  have h0 : getCallback w code net = getCallback w .null net := by
    simp only [getCallback, hc, hn]
  refine ⟨h0, ?_, ?_, ?_⟩
  · cases net with
    | rejected status message => simp [getCallback, hc]
    | resolved data =>
      cases hd : data.nullish with
      | true => simp [getCallback_of_nullish w code data hd, hc]
      | false =>
        obtain ⟨text, ht⟩ := stringify_tokenObject
          { access_token := fieldOf data "access_token",
            refresh_token := fieldOf data "refresh_token", file := w.file }
        simp [getCallback_of_not_nullish w code data text hd ht, hc]
  · cases net with
    | rejected status message => simp [getCallback, countRequests]
    | resolved data =>
      cases hd : data.nullish with
      | true => simp [getCallback_of_nullish w code data hd, countRequests]
      | false =>
        obtain ⟨text, ht⟩ := stringify_tokenObject
          { access_token := fieldOf data "access_token",
            refresh_token := fieldOf data "refresh_token", file := w.file }
        simp [getCallback_of_not_nullish w code data text hd ht, countRequests]
  · intro status message hnet
    subst hnet
    simp [getCallback, hc, errorBody]

/-- C5 at a query without `code`, the provider answering 400. -/
theorem callback_without_code_witness :
    getCallback { access_token := .null, refresh_token := .null, file := none } .undefined
        (.rejected (some 400) "Request failed with status code 400") =
      (.json 500 (.obj [("error", .str "Request failed with status code 400")]),
        { access_token := .null, refresh_token := .null, file := none },
        [.tokenPost "authorization_code" .null]) :=
  (callback_without_code { access_token := .null, refresh_token := .null, file := none }
    .undefined (.rejected (some 400) "Request failed with status code 400") rfl).2.2.2
    (some 400) "Request failed with status code 400" rfl

/-- C5 fails as stated: a request without `code` does reach the provider.  The
    handler makes the authorization-code POST with code `null`, and when the
    provider answers it with tokens the state is replaced. -/
theorem callback_without_code_posts :
    (getCallback { access_token := .null, refresh_token := .null, file := none } .undefined
        (.rejected (some 400) "Request failed with status code 400")).2.2 =
      [.tokenPost "authorization_code" .null] ∧
    countRequests
      (getCallback { access_token := .null, refresh_token := .null, file := none } .undefined
        (.rejected (some 400) "Request failed with status code 400")).2.2 = 1 ∧
    (getCallback { access_token := .null, refresh_token := .null, file := none } (.str "")
        (.resolved (.obj [("access_token", .str "A"), ("refresh_token", .str "R")]))).2.1 =
      { access_token := .str "A", refresh_token := .str "R",
        file := some "\x7b\n  \"access_token\": \"A\",\n  \"refresh_token\": \"R\"\n\x7d" } := by
  exact ⟨rfl, rfl, rfl⟩

theorem countTokenPosts_append (xs ys : List Event) :
    countTokenPosts (xs ++ ys) = countTokenPosts xs + countTokenPosts ys := by
  induction xs with
  | nil => simp [countTokenPosts]
  | cons x xs ih => cases x <;> simp [countTokenPosts, ih]; omega

theorem countPlaylistGets_append (xs ys : List Event) :
    countPlaylistGets (xs ++ ys) = countPlaylistGets xs + countPlaylistGets ys := by
  induction xs with
  | nil => simp [countPlaylistGets]
  | cons x xs ih => cases x <;> simp [countPlaylistGets, ih]; omega

theorem refresh_events (w : World) (net : HttpOutcome) (hR : w.refresh_token.truthy = true) :
    countTokenPosts (refreshAccessToken w net).2.2 = 1 ∧
    countPlaylistGets (refreshAccessToken w net).2.2 = 0 := by
  cases net with
  | rejected status message => simp [refreshAccessToken, hR, countTokenPosts, countPlaylistGets]
  | resolved data =>
    cases hd : data.getProp "access_token" with
    | error m => simp [refreshAccessToken, hR, hd, countTokenPosts, countPlaylistGets]
    | ok a =>
      obtain ⟨text, ht⟩ := stringify_tokenObject { w with access_token := a }
      simp [refreshAccessToken, hR, hd, saveTokens_of_stringify _ text ht, countTokenPosts,
        countPlaylistGets]

theorem refresh_keeps_tokens (w : World) (net : HttpOutcome)
    (hA : w.access_token.truthy = true) (hR : w.refresh_token.truthy = true)
    (hk : refreshKeepsAccess net = true) :
    (refreshAccessToken w net).2.1.access_token.truthy = true ∧
    (refreshAccessToken w net).2.1.refresh_token = w.refresh_token := by
  cases net with
  | rejected status message => simp [refreshAccessToken, hR, hA]
  | resolved data =>
    cases hd : data.getProp "access_token" with
    | error m => simp [refreshAccessToken, hR, hd, hA]
    | ok a =>
      obtain ⟨text, ht⟩ := stringify_tokenObject { w with access_token := a }
      simp [refreshKeepsAccess, hd] at hk
      simp [refreshAccessToken, hR, hd, saveTokens_of_stringify _ text ht, hk]

theorem playlists_401_step (w : World) (message : String) (refreshNet : HttpOutcome)
    (hA : w.access_token.truthy = true) (hR : w.refresh_token.truthy = true) :
    getPlaylists w (.rejected (some 401) message) refreshNet =
      (.redirect "/playlists", (refreshAccessToken w refreshNet).2.1,
        .playlistsGet w.access_token :: (refreshAccessToken w refreshNet).2.2) := by
  simp [getPlaylists, hA, playlistsCatch, shouldRefresh, hR]

theorem follow_401 (getNet refreshNet : Nat → HttpOutcome)
    (hget : ∀ i, ∃ message, getNet i = .rejected (some 401) message)
    (hrefresh : ∀ i, refreshKeepsAccess (refreshNet i) = true) :
    ∀ (hops i : Nat) (w : World), w.access_token.truthy = true →
      w.refresh_token.truthy = true →
      ∃ w1 events,
        followPlaylists getNet refreshNet hops i w = (.redirect "/playlists", w1, events) ∧
        countTokenPosts events = hops + 1 ∧ countPlaylistGets events = hops + 1 := by
  intro hops
  induction hops with
  | zero =>
    intro i w hA hR
    obtain ⟨m, hm⟩ := hget i
    refine ⟨_, _, by rw [followPlaylists, hm, playlists_401_step w m _ hA hR], ?_, ?_⟩
    · simp [countTokenPosts, (refresh_events w (refreshNet i) hR).1]
    · simp [countPlaylistGets, (refresh_events w (refreshNet i) hR).2]
  | succ hops ih =>
    intro i w hA hR
    obtain ⟨m, hm⟩ := hget i
    obtain ⟨hA1, hR1⟩ := refresh_keeps_tokens w (refreshNet i) hA hR (hrefresh i)
    obtain ⟨w2, events, h2, hc, hg⟩ := ih (i + 1) (refreshAccessToken w (refreshNet i)).2.1 hA1
      (by rw [hR1]; exact hR)
    refine ⟨w2, (.playlistsGet w.access_token :: (refreshAccessToken w (refreshNet i)).2.2) ++
      events, by rw [followPlaylists, hm, playlists_401_step w m _ hA hR]; simp [h2], ?_, ?_⟩
    · simp [countTokenPosts, countTokenPosts_append, (refresh_events w (refreshNet i) hR).1, hc]
      omega
    · simp [countPlaylistGets, countPlaylistGets_append,
        (refresh_events w (refreshNet i) hR).2, hg]

/-- C6, as the code has it: with an access token present, a 401 from the
    playlists endpoint makes one invocation of the handler perform exactly one
    GET and, when a refresh token is present, exactly one refresh (one POST),
    and answer with a redirect to `/playlists` whatever the refresh returned;
    with no refresh token present the 401 surfaces as a 500 with a JSON
    `{error}` body and no refresh.  The handler keeps no count of attempts:
    when every GET is answered 401 and every refresh leaves an access token
    present, the browser that follows the redirect `hops` times has caused
    `hops + 1` GETs and `hops + 1` refreshes and is again answered with a
    redirect to `/playlists`, for every `hops`. -/
theorem playlists_unauthorized (w : World) (message : String) (refreshNet : HttpOutcome)
    (hA : w.access_token.truthy = true) :
    (w.refresh_token.truthy = true →
      getPlaylists w (.rejected (some 401) message) refreshNet =
        (.redirect "/playlists", (refreshAccessToken w refreshNet).2.1,
          .playlistsGet w.access_token :: (refreshAccessToken w refreshNet).2.2) ∧
      countPlaylistGets (getPlaylists w (.rejected (some 401) message) refreshNet).2.2 = 1 ∧
      countTokenPosts (getPlaylists w (.rejected (some 401) message) refreshNet).2.2 = 1) ∧
    (w.refresh_token.truthy = false →
      getPlaylists w (.rejected (some 401) message) refreshNet =
        (.json 500 (.obj [("error", .str message)]), w, [.playlistsGet w.access_token])) ∧
    (w.refresh_token.truthy = true →
      ∀ (getNets refreshNets : Nat → HttpOutcome),
        (∀ i, ∃ m, getNets i = .rejected (some 401) m) →
        (∀ i, refreshKeepsAccess (refreshNets i) = true) →
        ∀ hops, ∃ w1 events,
          followPlaylists getNets refreshNets hops 0 w = (.redirect "/playlists", w1, events) ∧
          countTokenPosts events = hops + 1 ∧ countPlaylistGets events = hops + 1) := by
  refine ⟨fun hR => ?_, fun hR => ?_, fun hR getNets refreshNets hg hr hops =>
    follow_401 getNets refreshNets hg hr hops 0 w hA hR⟩
  · rw [playlists_401_step w message refreshNet hA hR]
    refine ⟨rfl, ?_, ?_⟩
    · simp [countPlaylistGets, (refresh_events w refreshNet hR).2]
    · simp [countTokenPosts, (refresh_events w refreshNet hR).1]
  · simp [getPlaylists, hA, playlistsCatch, shouldRefresh, hR, errorBody]

/-- C6 at the state `{A, R}`, the refresh being rejected. -/
theorem playlists_unauthorized_witness :
    getPlaylists { access_token := .str "A", refresh_token := .str "R", file := none }
        (.rejected (some 401) "Request failed with status code 401")
        (.rejected (some 400) "Request failed with status code 400") =
      (.redirect "/playlists",
        { access_token := .str "A", refresh_token := .str "R", file := none },
        [.playlistsGet (.str "A"), .tokenPost "refresh_token" (.str "R")]) :=
  ((playlists_unauthorized
    { access_token := .str "A", refresh_token := .str "R", file := none }
    "Request failed with status code 401"
    (.rejected (some 400) "Request failed with status code 400") rfl).1 rfl).1

/-- C6 fails as stated: the recovery is not bounded to one attempt.  With the
    playlists endpoint answering 401 to every call, the re-dispatched request
    refreshes again and is answered with another redirect to `/playlists`, not
    with a 500: after one re-dispatch there have been two refreshes, after
    three re-dispatches four. -/
theorem playlists_redirect_loop :
    followPlaylists (fun _ => .rejected (some 401) "Request failed with status code 401")
        (fun _ => .resolved (.obj [("access_token", .str "A")])) 1 0
        { access_token := .str "A", refresh_token := .str "R", file := none } =
      (.redirect "/playlists",
        { access_token := .str "A", refresh_token := .str "R",
          file := some "\x7b\n  \"access_token\": \"A\",\n  \"refresh_token\": \"R\"\n\x7d" },
        [.playlistsGet (.str "A"), .tokenPost "refresh_token" (.str "R"),
          .fileWrite "\x7b\n  \"access_token\": \"A\",\n  \"refresh_token\": \"R\"\n\x7d",
          .playlistsGet (.str "A"), .tokenPost "refresh_token" (.str "R"),
          .fileWrite "\x7b\n  \"access_token\": \"A\",\n  \"refresh_token\": \"R\"\n\x7d"]) ∧
    (followPlaylists (fun _ => .rejected (some 401) "Request failed with status code 401")
        (fun _ => .rejected (some 400) "Request failed with status code 400") 3 0
        { access_token := .str "A", refresh_token := .str "R", file := none }).1 =
      .redirect "/playlists" ∧
    countTokenPosts
      (followPlaylists (fun _ => .rejected (some 401) "Request failed with status code 401")
        (fun _ => .rejected (some 400) "Request failed with status code 400") 3 0
        { access_token := .str "A", refresh_token := .str "R", file := none }).2.2 = 4 := by
  exact ⟨rfl, rfl, rfl⟩

theorem or_eq_truthyOr (v : JsVal) (d : String) : v.or (.str d) = truthyOr v d := rfl

theorem optProp_eq (v : JsVal) (k : String) : optProp v k = .ok (fieldOf v k) := by
  cases v <;> simp [optProp, JsVal.nullish, JsVal.getProp, fieldOf]

theorem optIndex0_eq (v : JsVal) : optIndex0 v = .ok (firstOf v) := by
  cases v with
  | arr xs => cases xs <;> simp [optIndex0, JsVal.nullish, JsVal.getIndex0, firstOf]
  | _ => simp [optIndex0, JsVal.nullish, JsVal.getIndex0, firstOf]

theorem summarize_of_not_nullish (p : JsVal) (h : p.nullish = false) :
    summarize p = .ok (summaryOf p) := by
  simp [summarize, getProp_of_not_nullish p _ h, optProp_eq, optIndex0_eq, summaryOf,
    or_eq_truthyOr]

theorem truthyOr_eq_presentOr (v : JsVal) (d : String) (h : absentOrTruthy v = true) :
    truthyOr v d = presentOr v d := by
  cases v <;> simp_all [absentOrTruthy, truthyOr, presentOr, JsVal.nullish, JsVal.truthy]

theorem renderEntries_ok (ps : List JsVal) (h : ∀ p ∈ ps, p.nullish = false) (html : String) :
    renderEntries ps html = .ok (html ++ concatAll ((ps.map summaryOf).map entryHtml)) := by
  induction ps generalizing html with
  | nil => simp [renderEntries, concatAll]
  | cons p ps ih =>
    have hp := h p (List.mem_cons_self p ps)
    have hps : ∀ q ∈ ps, q.nullish = false := fun q hq => h q (List.mem_cons_of_mem p hq)
    simp [renderEntries, summarize_of_not_nullish p hp, ih hps, concatAll, String.append_assoc]

/-- C10, as the code has it: an item `p` that is not `null` or `undefined`
    maps to the summary in which each value is kept if it is truthy and
    replaced by its default otherwise (the name is `p.name`, else
    `"Untitled Playlist"`; the URL is `p.external_urls.spotify`, else `"#"`;
    the image is the `url` of element 0 of `p.images`, else the placeholder);
    where each of the three values is absent or truthy this is the
    specification's mapping, and an item with none of the three maps to
    (placeholder, `"#"`, `"Untitled Playlist"`).  An entry is the template of
    lines 160-165 around the three values.  With an access token present and
    the GET resolved with a body whose items are none of them `null` or
    `undefined`, the page sent is the head, one entry per item in the
    provider's order, and the foot; it has no entry when `items` is absent or
    otherwise falsy. -/
theorem playlist_mapping :
    (∀ p, p.nullish = false →
      summarize p = .ok
        { imageUrl := truthyOr (fieldOf (firstOf (fieldOf p "images")) "url")
            "https://via.placeholder.com/200?text=No+Image",
          playlistUrl := truthyOr (fieldOf (fieldOf p "external_urls") "spotify") "#",
          playlistName := truthyOr (fieldOf p "name") "Untitled Playlist" }) ∧
    (∀ p, p.nullish = false →
      absentOrTruthy (fieldOf (firstOf (fieldOf p "images")) "url") = true →
      absentOrTruthy (fieldOf (fieldOf p "external_urls") "spotify") = true →
      absentOrTruthy (fieldOf p "name") = true →
      summarize p = .ok (specSummary p)) ∧
    (∀ p, p.nullish = false → fieldOf p "images" = .undefined →
      fieldOf p "external_urls" = .undefined → fieldOf p "name" = .undefined →
      summarize p = .ok
        { imageUrl := .str "https://via.placeholder.com/200?text=No+Image",
          playlistUrl := .str "#", playlistName := .str "Untitled Playlist" }) ∧
    (∀ s : PlaylistSummary,
      entryHtml s =
        "\n                <div class=\"playlist\">\n                    <img src=\"" ++ s.imageUrl.toStr ++
        "\" alt=\"Cover\" />\n                    <a href=\"" ++ s.playlistUrl.toStr ++
        "\" target=\"_blank\">" ++ s.playlistName.toStr ++
        "</a>\n                </div>\n            ") ∧
    (∀ (w : World) (data : JsVal) (ps : List JsVal) (refreshNet : HttpOutcome),
      w.access_token.truthy = true → data.nullish = false →
      fieldOf data "items" = .arr ps → (∀ p ∈ ps, p.nullish = false) →
      getPlaylists w (.resolved data) refreshNet =
        (.send (pageHead ++ concatAll ((ps.map summaryOf).map entryHtml) ++ pageFoot), w,
          [.playlistsGet w.access_token])) ∧
    (∀ (w : World) (data : JsVal) (refreshNet : HttpOutcome),
      w.access_token.truthy = true → data.nullish = false →
      (fieldOf data "items").truthy = false →
      getPlaylists w (.resolved data) refreshNet =
        (.send (pageHead ++ pageFoot), w, [.playlistsGet w.access_token])) := by
  refine ⟨fun p h => summarize_of_not_nullish p h, fun p h hi he hn => ?_,
    fun p h hi he hn => ?_, fun s => rfl, ?_, ?_⟩
  · rw [summarize_of_not_nullish p h]
    simp only [summaryOf, specSummary, truthyOr_eq_presentOr _ _ hi,
      truthyOr_eq_presentOr _ _ he, truthyOr_eq_presentOr _ _ hn]
  · rw [summarize_of_not_nullish p h]
    simp only [summaryOf, hi, he, hn]
    rfl
  · intro w data ps refreshNet hA hd hi hps
    have ht : (JsVal.arr ps).truthy = true := rfl
    simp [getPlaylists, hA, renderPage, getProp_of_not_nullish data _ hd, hi, JsVal.or, ht,
      renderEntries_ok ps hps]
  · intro w data refreshNet hA hd hi
    simp [getPlaylists, hA, renderPage, getProp_of_not_nullish data _ hd, JsVal.or, hi,
      renderEntries]

/-- C10 at a response with two items, the first without any of the three
    fields: the summaries, and the page sent, character for character. -/
theorem playlist_mapping_witness :
    summarize (.obj [("id", .str "37i9")]) = .ok
      { imageUrl := .str "https://via.placeholder.com/200?text=No+Image",
        playlistUrl := .str "#", playlistName := .str "Untitled Playlist" } ∧
    summarize (.obj [("name", .str "Mix"), ("images", .arr [.obj [("url", .str "http://i/1")]]),
        ("external_urls", .obj [("spotify", .str "http://s/1")])]) =
      .ok { imageUrl := .str "http://i/1", playlistUrl := .str "http://s/1",
            playlistName := .str "Mix" } ∧
    getPlaylists { access_token := .str "A", refresh_token := .str "R", file := none }
        (.resolved (.obj [("items", .arr [.obj [("id", .str "37i9")],
          .obj [("name", .str "Mix"), ("images", .arr [.obj [("url", .str "http://i/1")]]),
            ("external_urls", .obj [("spotify", .str "http://s/1")])]])]))
        (.rejected none "unused") =
      (.send (pageHead ++
          concatAll (([.obj [("id", .str "37i9")],
            .obj [("name", .str "Mix"), ("images", .arr [.obj [("url", .str "http://i/1")]]),
              ("external_urls", .obj [("spotify", .str "http://s/1")])]].map summaryOf).map
            entryHtml) ++ pageFoot),
        { access_token := .str "A", refresh_token := .str "R", file := none },
        [.playlistsGet (.str "A")]) ∧
    getPlaylists { access_token := .str "A", refresh_token := .str "R", file := none }
        (.resolved (.obj [("items", .arr [.obj [("id", .str "37i9")],
          .obj [("name", .str "Mix"), ("images", .arr [.obj [("url", .str "http://i/1")]]),
            ("external_urls", .obj [("spotify", .str "http://s/1")])]])]))
        (.rejected none "unused") =
      (.send "\n            <html>\n            <head>\n                <title>My Spotify Playlists</title>\n                <style>\n                    body \x7b font-family: Arial, sans-serif; text-align: center; background: #121212; color: white; \x7d\n                    h1 \x7b margin-top: 20px; \x7d\n                    .playlist \x7b display: inline-block; margin: 15px; width: 200px; \x7d\n                    img \x7b width: 200px; height: 200px; border-radius: 8px; \x7d\n                    a \x7b text-decoration: none; color: #1DB954; font-weight: bold; display: block; margin-top: 8px; \x7d\n                </style>\n            </head>\n            <body>\n                <h1>🎵 My Spotify Playlists</h1>\n        \n                <div class=\"playlist\">\n                    <img src=\"https://via.placeholder.com/200?text=No+Image\" alt=\"Cover\" />\n                    <a href=\"#\" target=\"_blank\">Untitled Playlist</a>\n                </div>\n            \n                <div class=\"playlist\">\n                    <img src=\"http://i/1\" alt=\"Cover\" />\n                    <a href=\"http://s/1\" target=\"_blank\">Mix</a>\n                </div>\n            </body></html>",
        { access_token := .str "A", refresh_token := .str "R", file := none },
        [.playlistsGet (.str "A")]) :=
  ⟨playlist_mapping.2.2.1 (.obj [("id", .str "37i9")]) rfl rfl rfl rfl, rfl,
    playlist_mapping.2.2.2.2.1
      { access_token := .str "A", refresh_token := .str "R", file := none }
      (.obj [("items", .arr [.obj [("id", .str "37i9")],
        .obj [("name", .str "Mix"), ("images", .arr [.obj [("url", .str "http://i/1")]]),
          ("external_urls", .obj [("spotify", .str "http://s/1")])]])])
      _ (.rejected none "unused") rfl rfl rfl (by simp [JsVal.nullish]),
    rfl⟩

/-- C10 fails as stated.  A name that is present and empty is not kept: the
    item `{"name": ""}` maps to the name `"Untitled Playlist"`, where the
    specification's mapping keeps `""`.  And not every item is mapped: with a
    `null` item in the response no page is sent, the answer is a 500. -/
theorem playlist_empty_name_and_null_item :
    summarize (.obj [("name", .str "")]) = .ok
      { imageUrl := .str "https://via.placeholder.com/200?text=No+Image",
        playlistUrl := .str "#", playlistName := .str "Untitled Playlist" } ∧
    (specSummary (.obj [("name", .str "")])).playlistName = .str "" ∧
    getPlaylists { access_token := .str "A", refresh_token := .str "R", file := none }
        (.resolved (.obj [("items", .arr [.obj [("name", .str "Mix")], .null])]))
        (.rejected none "unused") =
      (.json 500 (.obj [("error", .str "Cannot read properties of null (reading 'images')")]),
        { access_token := .str "A", refresh_token := .str "R", file := none },
        [.playlistsGet (.str "A")]) := by
  exact ⟨rfl, rfl, rfl⟩

theorem consistent_of_load (file : Option String) (w : World) (h : loadTokens file = some w) :
    Consistent w := by
  unfold Consistent
  cases file with
  | none =>
    simp [loadTokens] at h
    subst h
    rfl
  | some text =>
    have hf : w.file = some text := by
      unfold loadTokens at h
      simp only [] at h
      split at h
      · exact absurd h (by simp)
      · split at h
        · simp at h; subst h; rfl
        · exact absurd h (by simp)
    rw [hf]; exact h

theorem refresh_step (w : World) (net : HttpOutcome) (hc : Consistent w)
    (ht : tokenLike w.refresh_token = true) (hn : refreshTyped net = true) :
    Consistent (refreshAccessToken w net).2.1 ∧
    tokenLike (refreshAccessToken w net).2.1.refresh_token = true := by
  by_cases hR : w.refresh_token.truthy = true
  · cases net with
    | rejected status message => simpa [refreshAccessToken, hR] using ⟨hc, ht⟩
    | resolved data =>
      cases hd : data.getProp "access_token" with
      | error m => simpa [refreshAccessToken, hR, hd] using ⟨hc, ht⟩
      | ok a =>
        obtain ⟨text, htext⟩ := stringify_tokenObject { w with access_token := a }
        have ha : tokenLike a = true := by simpa [refreshTyped, hd] using hn
        have hl := loadTokens_of_stringify a w.refresh_token w.file text ha ht htext
        simpa [refreshAccessToken, hR, hd, saveTokens_of_stringify _ text htext, Consistent]
          using ⟨hl, ht⟩
  · simpa [refreshAccessToken, hR] using ⟨hc, ht⟩

theorem refresh_wroteThrough (w : World) (net : HttpOutcome) :
    WroteThrough w (refreshAccessToken w net).2 := by
  by_cases hR : w.refresh_token.truthy = true
  · cases net with
    | rejected status message => left; simp [refreshAccessToken, hR, fileWrites]
    | resolved data =>
      cases hd : data.getProp "access_token" with
      | error m => left; simp [refreshAccessToken, hR, hd, fileWrites]
      | ok a =>
        obtain ⟨text, htext⟩ := stringify_tokenObject { w with access_token := a }
        right
        refine ⟨text, ?_, ?_, ?_⟩
        · simp [refreshAccessToken, hR, hd, saveTokens_of_stringify _ text htext, fileWrites]
        · simp [refreshAccessToken, hR, hd, saveTokens_of_stringify _ text htext]
        · simpa [refreshAccessToken, hR, hd, saveTokens_of_stringify _ text htext, tokenObject]
            using htext
  · left; simp [refreshAccessToken, hR, fileWrites]

theorem callback_step (w : World) (code : JsVal) (net : HttpOutcome) (hc : Consistent w)
    (ht : tokenLike w.refresh_token = true) (hn : exchangeTyped net = true) :
    Consistent (getCallback w code net).2.1 ∧
    tokenLike (getCallback w code net).2.1.refresh_token = true := by
  cases net with
  | rejected status message => exact ⟨hc, ht⟩
  | resolved data =>
    cases hd : data.nullish with
    | true => rw [getCallback_of_nullish w code data hd]; exact ⟨hc, ht⟩
    | false =>
      obtain ⟨text, htext⟩ := stringify_tokenObject
        { access_token := fieldOf data "access_token",
          refresh_token := fieldOf data "refresh_token", file := w.file }
      have hb : tokenLike (fieldOf data "access_token") = true ∧
          tokenLike (fieldOf data "refresh_token") = true := by
        simpa [exchangeTyped, getProp_of_not_nullish data _ hd] using hn
      rw [getCallback_of_not_nullish w code data text hd htext]
      exact ⟨loadTokens_of_stringify _ _ w.file text hb.1 hb.2 htext, hb.2⟩

theorem callback_wroteThrough (w : World) (code : JsVal) (net : HttpOutcome) :
    WroteThrough w (getCallback w code net).2 := by
  cases net with
  | rejected status message => left; simp [getCallback, fileWrites]
  | resolved data =>
    cases hd : data.nullish with
    | true => left; simp [getCallback_of_nullish w code data hd, fileWrites]
    | false =>
      obtain ⟨text, htext⟩ := stringify_tokenObject
        { access_token := fieldOf data "access_token",
          refresh_token := fieldOf data "refresh_token", file := w.file }
      right
      rw [getCallback_of_not_nullish w code data text hd htext]
      exact ⟨text, by simp [fileWrites], rfl, by simpa [tokenObject] using htext⟩

theorem playlists_world (w : World) (getNet refreshNet : HttpOutcome) :
    (getPlaylists w getNet refreshNet).2 = (w, []) ∨
    (getPlaylists w getNet refreshNet).2 = (w, [.playlistsGet w.access_token]) ∨
    ((∃ message, getNet = .rejected (some 401) message) ∧
      (getPlaylists w getNet refreshNet).2 =
        ((refreshAccessToken w refreshNet).2.1,
          .playlistsGet w.access_token :: (refreshAccessToken w refreshNet).2.2)) := by
  unfold getPlaylists
  by_cases hA : w.access_token.truthy = true
  · simp only [hA, Bool.not_true, Bool.false_eq_true, if_false]
    cases getNet with
    | rejected status message =>
      simp only [playlistsCatch]
      split
      · rename_i hs
        have h401 : status = some 401 := by
          simp [shouldRefresh] at hs
          exact hs.1
        right; right; exact ⟨⟨message, by rw [h401]⟩, rfl⟩
      · right; left; rfl
    | resolved data =>
      simp only []
      split
      · right; left; rfl
      · simp only [playlistsCatch]
        have hn : shouldRefresh none w = false := rfl
        simp only [hn]
        right; left; rfl
  · left; simp [hA]

theorem wroteThrough_cons_get (w : World) (b : JsVal) (r : World × List Event)
    (h : WroteThrough w r) : WroteThrough w (r.1, .playlistsGet b :: r.2) := by
  rcases h with ⟨h1, h2⟩ | ⟨text, h1, h2, h3⟩
  · left; exact ⟨by simpa [fileWrites] using h1, h2⟩
  · right; exact ⟨text, by simpa [fileWrites] using h1, h2, h3⟩

theorem serve_wroteThrough (cfg : Credentials) (w : World) (req : Request) :
    WroteThrough w (serve cfg w req) := by
  cases req with
  | startup net =>
    by_cases hR : w.refresh_token.truthy = true
    · simpa [serve, startupRefresh, hR] using refresh_wroteThrough w net
    · left; simp [serve, startupRefresh, hR, fileWrites]
  | timer net => exact refresh_wroteThrough w net
  | refresh net => exact refresh_wroteThrough w net
  | login => left; simp [serve, getLogin, fileWrites]
  | callback code net => exact callback_wroteThrough w code net
  | playlists getNet refreshNet =>
    rcases playlists_world w getNet refreshNet with h | h | ⟨_, h⟩
    · left; simp [serve, h, fileWrites]
    · left; simp [serve, h, fileWrites]
    · simp only [serve, h]
      exact wroteThrough_cons_get w _ _ (refresh_wroteThrough w refreshNet)

theorem serve_step (cfg : Credentials) (w : World) (req : Request) (hc : Consistent w)
    (ht : tokenLike w.refresh_token = true) (hn : req.typed = true) :
    Consistent (serve cfg w req).1 ∧ tokenLike (serve cfg w req).1.refresh_token = true := by
  cases req with
  | startup net =>
    by_cases hR : w.refresh_token.truthy = true
    · simpa [serve, startupRefresh, hR] using refresh_step w net hc ht hn
    · simpa [serve, startupRefresh, hR] using ⟨hc, ht⟩
  | timer net => exact refresh_step w net hc ht hn
  | refresh net => exact refresh_step w net hc ht hn
  | login => exact ⟨hc, ht⟩
  | callback code net => exact callback_step w code net hc ht hn
  | playlists getNet refreshNet =>
    rcases playlists_world w getNet refreshNet with h | h | ⟨_, h⟩
    · simpa [serve, h] using ⟨hc, ht⟩
    · simpa [serve, h] using ⟨hc, ht⟩
    · simpa [serve, h] using refresh_step w refreshNet hc ht hn

theorem serveAll_consistent (cfg : Credentials) (reqs : List Request) :
    ∀ w, Consistent w → tokenLike w.refresh_token = true →
      (∀ req ∈ reqs, req.typed = true) → Consistent (serveAll cfg w reqs) := by
  induction reqs with
  | nil => intro w hc _ _; exact hc
  | cons req reqs ih =>
    intro w hc ht hn
    obtain ⟨hc1, ht1⟩ := serve_step cfg w req hc ht (hn req (List.mem_cons_self req reqs))
    exact ih _ hc1 ht1 (fun q hq => hn q (List.mem_cons_of_mem req hq))

theorem refresh_failed (w : World) (net : HttpOutcome)
    (h : w.refresh_token.truthy = false ∨ tokenPostFails net = true) :
    (refreshAccessToken w net).2.1 = w ∧ fileWrites (refreshAccessToken w net).2.2 = [] := by
  by_cases hR : w.refresh_token.truthy = true
  · have hf : tokenPostFails net = true := by
      rcases h with h | h
      · rw [hR] at h; exact absurd h (by simp)
      · exact h
    cases net with
    | rejected status message => simp [refreshAccessToken, hR, fileWrites]
    | resolved data =>
      simp [refreshAccessToken, hR, getProp_of_nullish data _ hf, fileWrites]
  · simp [refreshAccessToken, hR, fileWrites]

theorem refresh_succeeded (w : World) (net : HttpOutcome)
    (hR : w.refresh_token.truthy = true) (hf : tokenPostFails net = false) :
    ∃ text, Json.stringify (tokenObject (refreshAccessToken w net).2.1) = some text ∧
      (refreshAccessToken w net).2.1.file = some text ∧
      fileWrites (refreshAccessToken w net).2.2 = [text] := by
  cases net with
  | rejected status message => simp [tokenPostFails] at hf
  | resolved data =>
    obtain ⟨text, ht⟩ := stringify_tokenObject
      { w with access_token := fieldOf data "access_token" }
    refine ⟨text, ?_, ?_, ?_⟩
    · simpa [refreshAccessToken, hR, getProp_of_not_nullish data _ hf,
        saveTokens_of_stringify _ text ht, tokenObject] using ht
    · simp [refreshAccessToken, hR, getProp_of_not_nullish data _ hf,
        saveTokens_of_stringify _ text ht]
    · simp [refreshAccessToken, hR, getProp_of_not_nullish data _ hf,
        saveTokens_of_stringify _ text ht, fileWrites]

theorem exchange_failed (w : World) (code : JsVal) (net : HttpOutcome)
    (hf : tokenPostFails net = true) :
    (getCallback w code net).2.1 = w ∧ fileWrites (getCallback w code net).2.2 = [] := by
  cases net with
  | rejected status message => simp [getCallback, fileWrites]
  | resolved data => simp [getCallback_of_nullish w code data hf, fileWrites]

theorem exchange_succeeded (w : World) (code : JsVal) (net : HttpOutcome)
    (hf : tokenPostFails net = false) :
    ∃ text, Json.stringify (tokenObject (getCallback w code net).2.1) = some text ∧
      (getCallback w code net).2.1.file = some text ∧
      fileWrites (getCallback w code net).2.2 = [text] := by
  cases net with
  | rejected status message => simp [tokenPostFails] at hf
  | resolved data =>
    obtain ⟨text, ht⟩ := stringify_tokenObject
      { access_token := fieldOf data "access_token",
        refresh_token := fieldOf data "refresh_token", file := w.file }
    rw [getCallback_of_not_nullish w code data text hf ht]
    exact ⟨text, by simpa [tokenObject] using ht, rfl, by simp [fileWrites]⟩

/-- C8: the state being the pair of the in-memory tokens and the file (an
    absent file read as all-null), the tokens in memory equal the tokens on
    disk after the load at startup and after every sequence of requests served
    (the startup refresh, the timer, and the four routes), the provider's token
    answers carrying token-like tokens.  Operation by operation: a refresh
    that fails (no refresh token, a rejected POST, a `null` body) and an
    exchange that fails leave the state as it is and write nothing; a refresh
    and an exchange that succeed write the file once, with the text of the
    tokens they leave in memory; `/login` changes nothing and has no effect;
    `/playlists` either changes nothing and writes nothing, or, after a 401,
    leaves the state and the writes of its one refresh call; `/refresh`, the
    timer and the startup refresh are the refresh call. -/
theorem write_through (cfg : Credentials) (file : Option String) (w0 : World)
    (reqs : List Request) (hload : loadTokens file = some w0)
    (htok : tokenLike w0.refresh_token = true) (htyped : ∀ req ∈ reqs, req.typed = true) :
    Consistent w0 ∧ Consistent (serveAll cfg w0 reqs) ∧
    (∀ w req, WroteThrough w (serve cfg w req)) ∧
    (∀ w net, w.refresh_token.truthy = false ∨ tokenPostFails net = true →
      (refreshAccessToken w net).2.1 = w ∧ fileWrites (refreshAccessToken w net).2.2 = []) ∧
    (∀ w net, w.refresh_token.truthy = true → tokenPostFails net = false →
      ∃ text, Json.stringify (tokenObject (refreshAccessToken w net).2.1) = some text ∧
        (refreshAccessToken w net).2.1.file = some text ∧
        fileWrites (refreshAccessToken w net).2.2 = [text]) ∧
    (∀ w code net, tokenPostFails net = true →
      (getCallback w code net).2.1 = w ∧ fileWrites (getCallback w code net).2.2 = []) ∧
    (∀ w code net, tokenPostFails net = false →
      ∃ text, Json.stringify (tokenObject (getCallback w code net).2.1) = some text ∧
        (getCallback w code net).2.1.file = some text ∧
        fileWrites (getCallback w code net).2.2 = [text]) ∧
    (∀ w, (getLogin cfg w).2 = (w, []) ∧ serve cfg w .login = (w, [])) ∧
    (∀ w getNet refreshNet,
      (getPlaylists w getNet refreshNet).2 = (w, []) ∨
      (getPlaylists w getNet refreshNet).2 = (w, [.playlistsGet w.access_token]) ∨
      ((∃ message, getNet = .rejected (some 401) message) ∧
        (getPlaylists w getNet refreshNet).2 =
          ((refreshAccessToken w refreshNet).2.1,
            .playlistsGet w.access_token :: (refreshAccessToken w refreshNet).2.2))) ∧
    (∀ w net, (getRefresh w net).2 = (refreshAccessToken w net).2 ∧
      serve cfg w (.timer net) = (refreshAccessToken w net).2 ∧
      serve cfg w (.startup net) =
        if w.refresh_token.truthy then (refreshAccessToken w net).2 else (w, [])) :=
  ⟨consistent_of_load file w0 hload,
    serveAll_consistent cfg reqs w0 (consistent_of_load file w0 hload) htok htyped,
    fun w req => serve_wroteThrough cfg w req,
    fun w net h => refresh_failed w net h,
    fun w net hR hf => refresh_succeeded w net hR hf,
    fun w code net hf => exchange_failed w code net hf,
    fun w code net hf => exchange_succeeded w code net hf,
    fun _ => ⟨rfl, rfl⟩,
    fun w getNet refreshNet => playlists_world w getNet refreshNet,
    fun _ _ => ⟨rfl, rfl, rfl⟩⟩

/-- C8 at a run from an absent file: failed startup refresh, exchange
    delivering `{A, R}`, login, a 401 on the playlists followed by a refresh
    delivering `A2`, a rejected timer refresh, login again; the state after
    each request, and the final state, which the file holds. -/
theorem write_through_witness :
    serve { client_id := some "id", client_secret := some "secret",
            redirect_uri := some "http://localhost:3000/callback" }
        { access_token := .str "A", refresh_token := .str "R",
          file := some "\x7b\n  \"access_token\": \"A\",\n  \"refresh_token\": \"R\"\n\x7d" }
        .login =
      ({ access_token := .str "A", refresh_token := .str "R",
         file := some "\x7b\n  \"access_token\": \"A\",\n  \"refresh_token\": \"R\"\n\x7d" },
        []) ∧
    serveAll { client_id := some "id", client_secret := some "secret",
               redirect_uri := some "http://localhost:3000/callback" }
        { access_token := .null, refresh_token := .null, file := none }
        [.startup (.rejected none "offline"),
          .callback (.str "abc")
            (.resolved (.obj [("access_token", .str "A"), ("refresh_token", .str "R")])),
          .login,
          .playlists (.rejected (some 401) "Request failed with status code 401")
            (.resolved (.obj [("access_token", .str "A2")])),
          .timer (.rejected (some 400) "Request failed with status code 400"),
          .login] =
      { access_token := .str "A2", refresh_token := .str "R",
        file := some "\x7b\n  \"access_token\": \"A2\",\n  \"refresh_token\": \"R\"\n\x7d" } ∧
    loadTokens (some "\x7b\n  \"access_token\": \"A2\",\n  \"refresh_token\": \"R\"\n\x7d") =
      some { access_token := .str "A2", refresh_token := .str "R",
             file := some "\x7b\n  \"access_token\": \"A2\",\n  \"refresh_token\": \"R\"\n\x7d" } ∧
    Consistent
      (serveAll { client_id := some "id", client_secret := some "secret",
                  redirect_uri := some "http://localhost:3000/callback" }
        { access_token := .null, refresh_token := .null, file := none }
        [.startup (.rejected none "offline"),
          .callback (.str "abc")
            (.resolved (.obj [("access_token", .str "A"), ("refresh_token", .str "R")])),
          .login,
          .playlists (.rejected (some 401) "Request failed with status code 401")
            (.resolved (.obj [("access_token", .str "A2")])),
          .timer (.rejected (some 400) "Request failed with status code 400"),
          .login]) :=
  ⟨rfl, rfl, rfl,
    (write_through
      { client_id := some "id", client_secret := some "secret",
        redirect_uri := some "http://localhost:3000/callback" }
      none { access_token := .null, refresh_token := .null, file := none }
      [.startup (.rejected none "offline"),
        .callback (.str "abc")
          (.resolved (.obj [("access_token", .str "A"), ("refresh_token", .str "R")])),
        .login,
        .playlists (.rejected (some 401) "Request failed with status code 401")
          (.resolved (.obj [("access_token", .str "A2")])),
        .timer (.rejected (some 400) "Request failed with status code 400"),
        .login]
      rfl rfl (by decide)).2.1⟩

end SpotifyAuth
